import Mathlib

/-!
# Dashboard data loader (`src/dashboard_loader.js`)

A shallow embedding of the loader script: JavaScript values are a Lean
inductive, the ambient `window` / `document` state is an explicit record that
every effectful function threads through, and a call that raises is `none`.
-/

namespace DashboardLoader

/-! ## JavaScript values -/

/-- A JavaScript Number: a finite double carried by its exact value, or one of
the three non-finite values. -/
inductive JNum where
  | fin (q : ℚ)
  | nan
  | posInf
  | negInf
  deriving DecidableEq

/-- The JavaScript values this script handles: what `response.json()` can
produce, `undefined`, and `native n`, the built-in object that a plain object
inherits under the name `n` from `Object.prototype`. -/
inductive JVal where
  | undefined
  | null
  | bool (b : Bool)
  | num (n : JNum)
  | str (s : String)
  | arr (xs : List JVal)
  | obj (kvs : List (String × JVal))
  | native (n : String)

/-- Behaviour of the JavaScript host that lies outside this script and outside
the dashboard data model: property reads on primitive, array and built-in
receivers (their prototype tables), the text of a number that is not a safe
integer, the number a string denotes, and the coercions of arrays, objects and
built-ins (`none` when the coercion raises). Nothing proved below depends on
a particular host. -/
structure Host where
  primProp : JVal → String → JVal
  numberText : ℚ → String
  stringToNumber : String → JNum
  objToNumber : JVal → Option JNum
  objToText : JVal → Option String

/-- JavaScript truthiness (`!v` is its negation, `a || b` selects on it). -/
def truthy : JVal → Bool
  | .undefined => false
  | .null => false
  | .bool b => b
  | .num (.fin q) => decide (q ≠ 0)
  | .num .nan => false
  | .num _ => true
  | .str s => decide (s ≠ "")
  | .arr _ => true
  | .obj _ => true
  | .native _ => true

/-- The expression `a || b`. -/
def jsOr (a b : JVal) : JVal := if truthy a then a else b

/-- Own property of an object literal / parsed object; with duplicate keys the
last occurrence wins, as in `JSON.parse` and in object literals. -/
def ownProp : List (String × JVal) → String → Option JVal
  | [], _ => none
  | (k, v) :: rest, key =>
    match ownProp rest key with
    | some w => some w
    | none => if k = key then some v else none

/-- Names every plain object inherits from `Object.prototype`. -/
def objectProtoKeys : List String :=
  ["constructor", "toString", "toLocaleString", "valueOf", "hasOwnProperty",
   "isPrototypeOf", "propertyIsEnumerable", "__proto__", "__defineGetter__",
   "__defineSetter__", "__lookupGetter__", "__lookupSetter__"]

/-- Property read `o[key]` on a plain object: an own property, else the
inherited built-in, else `undefined`. -/
def objGet (kvs : List (String × JVal)) (key : String) : JVal :=
  match ownProp kvs key with
  | some v => v
  | none => if key ∈ objectProtoKeys then .native key else .undefined

/-- Property read `v[key]` / `v.key`; `none` when `v` is `null` or `undefined`
(TypeError). On a built-in receiver only the two names this script reads from
one are modelled exactly (`labels`, `values`; `Object.values` is the one
built-in among them that exists); other reads go to the host. -/
def getProp (h : Host) (v : JVal) (key : String) : Option JVal :=
  match v with
  | .undefined => none
  | .null => none
  | .obj kvs => some (objGet kvs key)
  | .native n =>
    if key = "labels" then some .undefined
    else if key = "values" then
      some (if n = "constructor" then .native "Object.values" else .undefined)
    else some (h.primProp (.native n) key)
  | w => some (h.primProp w key)

/-- Optional chaining `v?.key`. -/
def optGet (h : Host) (v : JVal) (key : String) : JVal :=
  match getProp h v key with
  | some w => w
  | none => .undefined

/-! ## Ambient state -/

/-- Value of `document.readyState`. -/
inductive ReadyState where
  | loading
  | interactive
  | complete
  deriving DecidableEq

/-- An element of the document: its `data-stat` attribute (if any) and its
text content. -/
structure Element where
  dataStat : Option String
  text : String
  deriving DecidableEq

/-- The functions of this script that it registers as `DOMContentLoaded`
listeners. -/
inductive Listener where
  | updateDashboardElements
  | initDashboardData
  deriving DecidableEq

/-- The state the script reads and writes: four `window` properties, the
document (ready state, elements in tree order, registered listeners) and the
custom events dispatched on it so far (name, `detail`). -/
structure World where
  dashboardData : JVal
  clubData : JVal
  playerStats : JVal
  courseStats : JVal
  readyState : ReadyState
  elements : List Element
  listeners : List Listener
  dispatched : List (String × JVal)

/-! ## Accessors -/

/-- Source `getPlayerStats`: `window.dashboardData?.player_stats || {}`. -/
def getPlayerStats (h : Host) (w : World) : JVal :=
  jsOr (optGet h w.dashboardData "player_stats") (.obj [])

/-- Source `getClubStatistics`: `window.dashboardData?.club_statistics || []`. -/
def getClubStatistics (h : Host) (w : World) : JVal :=
  jsOr (optGet h w.dashboardData "club_statistics") (.arr [])

/-- Source `getTemporalEvolution`: `window.dashboardData?.temporal_evolution || {}`. -/
def getTemporalEvolution (h : Host) (w : World) : JVal :=
  jsOr (optGet h w.dashboardData "temporal_evolution") (.obj [])

/-- Source `getCourseStatistics`: `window.dashboardData?.course_statistics || []`. -/
def getCourseStatistics (h : Host) (w : World) : JVal :=
  jsOr (optGet h w.dashboardData "course_statistics") (.arr [])

/-- Source `getLaunchMetrics`: `window.dashboardData?.launch_metrics || {}`. -/
def getLaunchMetrics (h : Host) (w : World) : JVal :=
  jsOr (optGet h w.dashboardData "launch_metrics") (.obj [])

/-- Source `getDispersionAnalysis`: `window.dashboardData?.dispersion_analysis || {}`. -/
def getDispersionAnalysis (h : Host) (w : World) : JVal :=
  jsOr (optGet h w.dashboardData "dispersion_analysis") (.obj [])

/-- Source `getConsistencyBenchmarks`:
`window.dashboardData?.consistency_benchmarks || {}`. -/
def getConsistencyBenchmarks (h : Host) (w : World) : JVal :=
  jsOr (optGet h w.dashboardData "consistency_benchmarks") (.obj [])

/-- Source `isPhase5Enabled`:
`window.dashboardData?.metadata?.phase_5_enabled || false`. -/
def isPhase5Enabled (h : Host) (w : World) : JVal :=
  jsOr (optGet h (optGet h w.dashboardData "metadata") "phase_5_enabled") (.bool false)

/-! ## Projections -/

/-- One output record of `getFormattedClubData`: the callback
`club => ({name: club.name, ...})`; raises when `club` is `null`/`undefined`. -/
def formatClub (h : Host) (club : JVal) : Option JVal :=
  match getProp h club "name", getProp h club "distance", getProp h club "deviation",
        getProp h club "speed", getProp h club "rating", getProp h club "category" with
  | some n, some d, some v, some s, some r, some c =>
    some (.obj [("name", n), ("distance", d), ("deviation", v),
                ("speed", s), ("rating", r), ("category", c)])
  | _, _, _, _, _, _ => none

/-- Source `getFormattedClubData`: `getClubStatistics().map(club => ({...}))`. Only an
array has a callable `map`: parsed data holds no functions, so on any other
truthy value the call raises. -/
def getFormattedClubData (h : Host) (w : World) : Option JVal :=
  match getClubStatistics h w with
  | .arr clubs => (clubs.mapM (formatClub h)).map JVal.arr
  | _ => none

/-- Pieces of a character sequence around every occurrence of `c`. -/
def splitOnChar (c : Char) : List Char → List (List Char)
  | [] => [[]]
  | x :: xs =>
    if x = c then [] :: splitOnChar c xs
    else
      match splitOnChar c xs with
      | [] => [[x]]
      | p :: ps => (x :: p) :: ps

/-- Call `s.split('-')`. -/
def splitDash (s : String) : List String :=
  (splitOnChar '-' s.data).map String.mk

/-- Call `v.split('-')` on an arbitrary value: only a string has a callable
`split` among the values that reach it. -/
def jsSplit (v : JVal) : Option (List String) :=
  match v with
  | .str s => some (splitDash s)
  | _ => none

/-- The `months` table of `generateTemporalLabels`. -/
def months : List (String × JVal) :=
  [("01", .str "Ene"), ("02", .str "Feb"), ("03", .str "Mar"), ("04", .str "Abr"),
   ("05", .str "May"), ("06", .str "Jun"), ("07", .str "Jul"), ("08", .str "Ago"),
   ("09", .str "Sep"), ("10", .str "Oct"), ("11", .str "Nov"), ("12", .str "Dic")]

/-- Lookup `months[month]`, where `month` is the second piece of the split or
`undefined` (property key `"undefined"`) when there is none. -/
def monthNameOf (pieces : List String) : JVal :=
  objGet months ((pieces.get? 1).getD "undefined")

/-- Decimal text of an integer. -/
def intText (z : Int) : String :=
  if z < 0 then "-" ++ Nat.repr z.natAbs else Nat.repr z.natAbs

/-- Coercion `ToString` on a Number: an integer up to `2^53` in magnitude prints all
its digits; other finite values print as the host formats them. -/
def numText (h : Host) : JNum → String
  | .fin q => if q.den = 1 ∧ q.num.natAbs ≤ 2 ^ 53 then intText q.num else h.numberText q
  | .nan => "NaN"
  | .posInf => "Infinity"
  | .negInf => "-Infinity"

/-- Coercion `ToString`, as applied by a template literal. -/
def templateText (h : Host) : JVal → Option String
  | .str s => some s
  | .undefined => some "undefined"
  | .null => some "null"
  | .bool b => some (if b then "true" else "false")
  | .num n => some (numText h n)
  | v => h.objToText v

/-- The callback of `period_data.map((period, index) => ...)`. -/
def labelAt (h : Host) (period_data : List JVal) (index : Nat) (period : JVal) :
    Option JVal :=
  match jsSplit period with
  | none => none
  | some pieces =>
    let year := pieces.headD ""
    let monthName := monthNameOf pieces
    let withYear : Option JVal :=
      (templateText h monthName).map (fun m => JVal.str (m ++ " " ++ year))
    if index = 0 then withYear
    else
      match jsSplit ((period_data.get? (index - 1)).getD .undefined) with
      | none => none
      | some prev => if year ≠ prev.headD "" then withYear else some monthName

/-- Method `Array.prototype.map` with the index passed to the callback: `rest` is what
remains to visit, `index` the position of its head in `period_data`. -/
def mapLabels (h : Host) (period_data : List JVal) : Nat → List JVal → Option (List JVal)
  | _, [] => some []
  | index, period :: rest =>
    match labelAt h period_data index period with
    | none => none
    | some l =>
      match mapLabels h period_data (index + 1) rest with
      | none => none
      | some ls => some (l :: ls)

/-- Source `generateTemporalLabels(period_data)`. A falsy argument or one whose
`length` is `0` gives `[]`; otherwise `.map` is called, which only an array
has (a non-empty string has a non-zero `length` and no `map`). -/
def generateTemporalLabels (h : Host) (period_data : JVal) : Option JVal :=
  if truthy period_data = false then some (.arr [])
  else
    match period_data with
    | .arr xs =>
      if xs.length = 0 then some (.arr [])
      else (mapLabels h xs 0 xs).map JVal.arr
    | .str _ => none
    | v =>
      match getProp h v "length" with
      | some (.num (.fin q)) => if q = 0 then some (.arr []) else none
      | _ => none

/-- Source `getClubTemporalData(clubCode)`: a record `{labels, values}`. -/
def getClubTemporalData (h : Host) (w : World) (clubCode : String) : Option JVal :=
  match getProp h (getTemporalEvolution h w) clubCode with
  | none => none
  | some clubData =>
    if truthy clubData = false then some (.obj [("labels", .arr []), ("values", .arr [])])
    else
      match getProp h clubData "labels", getProp h clubData "values" with
      | some ls, some vs =>
        (generateTemporalLabels h ls).map
          (fun labels => JVal.obj [("labels", labels), ("values", vs)])
      | _, _ => none

/-- Initial world with a given dataset, for evaluating the accessors. -/
def worldOf (d : JVal) : World :=
  { dashboardData := d, clubData := .undefined, playerStats := .undefined,
    courseStats := .undefined, readyState := .complete, elements := [],
    listeners := [], dispatched := [] }

/-! ## Document synchronisation -/

/-- Coercion `ToNumber`. -/
def toNumber (h : Host) : JVal → Option JNum
  | .num n => some n
  | .undefined => some .nan
  | .null => some (.fin 0)
  | .bool b => some (.fin (if b then 1 else 0))
  | .str s => some (h.stringToNumber s)
  | v => h.objToNumber v

/-- Function `Math.round` on a Number: the nearest integer, a tie going up. -/
def roundNum : JNum → JNum
  | .fin q => .fin ((Rat.floor (q + 1 / 2) : ℤ) : ℚ)
  | n => n

/-- Call `Math.round(v)`; raises when the conversion of `v` to a number does. -/
def mathRound (h : Host) (v : JVal) : Option JNum :=
  (toNumber h v).map roundNum

/-- The text an element shows after `element.textContent = v`: `null` and
`undefined` clear it, any other value is converted to a string. -/
def domText (h : Host) : JVal → Option String
  | .undefined => some ""
  | .null => some ""
  | v => templateText h v

/-- Set the text of the first element whose `data-stat` is `stat`. -/
def setFirst (stat : String) (t : String) : List Element → List Element
  | [] => []
  | e :: es =>
    if e.dataStat = some stat then { e with text := t } :: es
    else e :: setFirst stat t es

/-- Call `updateElement('[data-stat="<stat>"]', value)` on the element list:
`document.querySelector` yields the first match in tree order, and nothing
happens when there is none. -/
def updateElement (h : Host) (stat : String) (value : JVal) (els : List Element) :
    Option (List Element) :=
  if els.any (fun e => decide (e.dataStat = some stat)) then
    (domText h value).map (fun t => setFirst stat t els)
  else some els

/-- Source `updateDashboardElements()`; `none` when a conversion raises. Console
output is not part of the state. -/
def updateDashboardElements (h : Host) (w : World) : Option World := do
  let playerStats := getPlayerStats h w
  let v1 ← getProp h playerStats "handicap_actual"
  let e1 ← updateElement h "handicap" v1 w.elements
  let v2 ← getProp h playerStats "total_rondas"
  let e2 ← updateElement h "total-rondas" v2 e1
  let v3 ← getProp h playerStats "mejor_score"
  let e3 ← updateElement h "mejor-score" v3 e2
  let v4 ← getProp h playerStats "promedio_score"
  let r ← mathRound h v4
  let e4 ← updateElement h "promedio-score" (.num r) e3
  let v5 ← getProp h playerStats "mejora_handicap"
  let e5 ← updateElement h "mejora-handicap" v5 e4
  some { w with elements := e5 }

/-! ## Loading and initialisation -/

/-- What `fetch('output/dashboard_data.json')` delivers: a rejection
(transport error), or a response with its `ok` flag and the outcome of
`response.json()` (`none` when the body is malformed). -/
inductive FetchResult where
  | rejected
  | response (ok : Bool) (json : Option JVal)

/-- The `try` block of `loadDashboardData`: the state when it completes and
its completion, `none` for a throw (a rejected `fetch`, the `throw` on
`!response.ok`, a rejected `response.json()`). -/
def loadTry (f : FetchResult) (w : World) : World × Option JVal :=
  match f with
  | .rejected => (w, none)
  | .response ok json =>
    if ok = false then (w, none)
    else
      match json with
      | none => (w, none)
      | some d => ({ w with dashboardData := d }, some d)

/-- Source `loadDashboardData()`: the state after the call and the completion of the
function (`none` would be a rejected promise). The `catch` clause turns a throw
of the `try` block into the return value `null`. -/
def loadDashboardData (f : FetchResult) (w : World) : World × Option JVal :=
  match loadTry f w with
  | (w1, some d) => (w1, some d)
  | (w1, none) => (w1, some .null)

/-- Call `document.addEventListener('DOMContentLoaded', l)`: a listener already
registered is not added again. -/
def addListener (l : Listener) (w : World) : World :=
  if l ∈ w.listeners then w else { w with listeners := w.listeners ++ [l] }

/-- Call `document.dispatchEvent(new CustomEvent(name, { detail }))`, recorded in
the list of dispatched events. -/
def dispatchCustom (name : String) (detail : JVal) (w : World) : World :=
  { w with dispatched := w.dispatched ++ [(name, detail)] }

/-- Source `initDashboardData()`: the state after the call and the value the promise
resolves to; `none` when the promise rejects. -/
def initDashboardData (h : Host) (f : FetchResult) (w : World) : Option (World × JVal) :=
  match loadDashboardData f w with
  | (_, none) => none
  | (w1, some data) =>
    if truthy data then do
      let clubData ← getFormattedClubData h w1
      let w2 : World :=
        { w1 with clubData := clubData, playerStats := getPlayerStats h w1,
                  courseStats := getCourseStatistics h w1 }
      let w3 ←
        if w2.readyState = .loading then some (addListener .updateDashboardElements w2)
        else updateDashboardElements h w2
      some (dispatchCustom "dashboardDataReady" data w3, data)
    else some (w1, .null)

/-! ## Well-formed periods and the label policy, as the specification words them -/

/-- The twelve two-digit month codes `01` .. `12`. -/
def monthCodes : List String :=
  ["01", "02", "03", "04", "05", "06", "07", "08", "09", "10", "11", "12"]

/-- A well-formed period `YYYY-MM`: four decimal digits, a dash, a month
code in `01` .. `12`. -/
def isPeriod (p : String) : Bool :=
  match p.data with
  | [a, b, c, d, s, m1, m2] =>
    a.isDigit && b.isDigit && c.isDigit && d.isDigit && decide (s = '-')
      && decide (String.mk [m1, m2] ∈ monthCodes)
  | _ => false

/-- The year of a period: its first four characters. -/
def yearOf (p : String) : String := String.mk (p.data.take 4)

/-- The month number of a period, read from its last two characters. -/
def monthNumber (p : String) : Nat :=
  match p.data.drop 5 with
  | [m1, m2] => (m1.toNat - 48) * 10 + (m2.toNat - 48)
  | _ => 0

/-- Spanish three-letter month abbreviations, January first. -/
def spanishAbbr : List String :=
  ["Ene", "Feb", "Mar", "Abr", "May", "Jun", "Jul", "Ago", "Sep", "Oct", "Nov", "Dic"]

/-- The abbreviation of the month of a period. -/
def abbrOf (p : String) : String := spanishAbbr.getD (monthNumber p - 1) ""

/-- The label the policy prescribes at index `i` of `ps`: month and year at
index 0 and where the year differs from the previous element's, the month
alone elsewhere. -/
def specLabel (ps : List String) (i : Nat) : String :=
  if i = 0 ∨ yearOf (ps.getD i "") ≠ yearOf (ps.getD (i - 1) "") then
    abbrOf (ps.getD i "") ++ " " ++ yearOf (ps.getD i "")
  else abbrOf (ps.getD i "")

/-- A host with empty prototype tables whose coercions all raise; used to
evaluate the model on concrete inputs. -/
def bareHost : Host :=
  { primProp := fun _ _ => .undefined, numberText := fun _ => "", stringToNumber := fun _ => .nan,
    objToNumber := fun _ => none, objToText := fun _ => none }

/-! ## Vocabulary of the data model and of the document -/

/-- A scalar metric of the data model: a number, string or boolean, or an
absent (`undefined`) or `null` field. -/
def isScalar : JVal → Bool
  | .undefined => true
  | .null => true
  | .bool _ => true
  | .num _ => true
  | .str _ => true
  | _ => false

/-- Position `i` holds the first element of `els` whose `data-stat` is
`stat`. -/
def FirstMatch (els : List Element) (i : Nat) (stat : String) : Prop :=
  (∃ e, els.get? i = some e ∧ e.dataStat = some stat) ∧
  ∀ j e, j < i → els.get? j = some e → e.dataStat ≠ some stat

/-- The fetch failed: transport error, non-success status, or malformed body. -/
def FetchResult.failed : FetchResult → Bool
  | .rejected => true
  | .response ok json => !ok || json.isNone

/-- Successive `setFirst` steps, one per (selector value, text) pair. -/
def setFirstAll (kts : List (String × String)) (els : List Element) : List Element :=
  kts.foldl (fun acc kt => setFirst kt.1 kt.2 acc) els

/-- A sample document body: five player metrics (average score 82.4) and one
club. -/
def sampleRecord : List (String × JVal) :=
  [("player_stats", .obj
      [("handicap_actual", .num (.fin 23)), ("total_rondas", .num (.fin 52)),
       ("mejor_score", .num (.fin 78)), ("promedio_score", .num (.fin (412 / 5))),
       ("mejora_handicap", .num (.fin 3))]),
   ("club_statistics", .arr [.obj [("name", .str "Driver")]])]

/-- The sample dataset. -/
def sampleData : JVal := .obj sampleRecord

/-- A sample document: two `handicap` elements around an unmarked one, then a
`promedio-score` element; no element for the other three selectors. -/
def sampleElements : List Element :=
  [⟨some "handicap", "--"⟩, ⟨none, "Resumen"⟩, ⟨some "handicap", "--"⟩,
   ⟨some "promedio-score", "--"⟩]

/-- A loaded, ready page showing `sampleElements` over `sampleData`. -/
def sampleWorld : World :=
  { worldOf sampleData with elements := sampleElements }

/-- The sample page before any load: ready, showing `sampleElements`, the
dataset still `null`. -/
def samplePage : World :=
  { worldOf .null with elements := sampleElements }

/-! ## Lemmas on periods -/

theorem isDigit_ne_dash (c : Char) (hc : c.isDigit = true) : c ≠ '-' := by
  rintro rfl
  exact absurd hc (by decide)

/-- Shape of a well-formed period. -/
theorem isPeriod_shape (p : String) (hp : isPeriod p = true) :
    ∃ a b c d m1 m2, p = String.mk [a, b, c, d, '-', m1, m2] ∧
      a ≠ '-' ∧ b ≠ '-' ∧ c ≠ '-' ∧ d ≠ '-' ∧ String.mk [m1, m2] ∈ monthCodes := by
  obtain ⟨l⟩ := p
  unfold isPeriod at hp
  match l, hp with
  | [a, b, c, d, s, m1, m2], hp =>
    simp only [Bool.and_eq_true, decide_eq_true_eq] at hp
    obtain ⟨⟨⟨⟨⟨ha, hb⟩, hc⟩, hd⟩, hs⟩, hm⟩ := hp
    subst hs
    exact ⟨a, b, c, d, m1, m2, rfl, isDigit_ne_dash a ha, isDigit_ne_dash b hb,
      isDigit_ne_dash c hc, isDigit_ne_dash d hd, hm⟩

theorem mk_pair_eq (m1 m2 a b : Char) (h : String.mk [m1, m2] = String.mk [a, b]) :
    m1 = a ∧ m2 = b := by
  injection h with h
  simpa using h

/-- The twelve month codes, character by character. -/
theorem monthCode_cases (m1 m2 : Char) (hm : String.mk [m1, m2] ∈ monthCodes) :
    (m1 = '0' ∧ (m2 = '1' ∨ m2 = '2' ∨ m2 = '3' ∨ m2 = '4' ∨ m2 = '5' ∨ m2 = '6' ∨
      m2 = '7' ∨ m2 = '8' ∨ m2 = '9')) ∨ (m1 = '1' ∧ (m2 = '0' ∨ m2 = '1' ∨ m2 = '2')) := by
  simp only [monthCodes, List.mem_cons, List.mem_nil_iff, or_false] at hm
  rcases hm with h | h | h | h | h | h | h | h | h | h | h | h
  · have := mk_pair_eq m1 m2 '0' '1' h; tauto
  · have := mk_pair_eq m1 m2 '0' '2' h; tauto
  · have := mk_pair_eq m1 m2 '0' '3' h; tauto
  · have := mk_pair_eq m1 m2 '0' '4' h; tauto
  · have := mk_pair_eq m1 m2 '0' '5' h; tauto
  · have := mk_pair_eq m1 m2 '0' '6' h; tauto
  · have := mk_pair_eq m1 m2 '0' '7' h; tauto
  · have := mk_pair_eq m1 m2 '0' '8' h; tauto
  · have := mk_pair_eq m1 m2 '0' '9' h; tauto
  · have := mk_pair_eq m1 m2 '1' '0' h; tauto
  · have := mk_pair_eq m1 m2 '1' '1' h; tauto
  · have := mk_pair_eq m1 m2 '1' '2' h; tauto

/-- On a well-formed period the split yields the year and the month code, and
the `months` table holds the Spanish abbreviation of that month. -/
theorem period_parts (p : String) (hp : isPeriod p = true) :
    ∃ code, jsSplit (.str p) = some [yearOf p, code] ∧
      monthNameOf [yearOf p, code] = .str (abbrOf p) ∧
      p.data = (yearOf p).data ++ '-' :: code.data ∧
      code = monthCodes.getD (spanishAbbr.indexOf (abbrOf p)) "" ∧
      (yearOf p).data.length = 4 ∧ (abbrOf p).data.length = 3 := by
  obtain ⟨a, b, c, d, m1, m2, rfl, ha, hb, hc, hd, hm⟩ := isPeriod_shape p hp
  refine ⟨String.mk [m1, m2], ?_, ?_, ?_, ?_, ?_, ?_⟩
  · have h1 : m1 ≠ '-' ∧ m2 ≠ '-' := by
      rcases monthCode_cases m1 m2 hm with ⟨rfl, h | h | h | h | h | h | h | h | h⟩ |
        ⟨rfl, h | h | h⟩ <;> subst h <;> exact ⟨by decide, by decide⟩
    simp [jsSplit, splitDash, splitOnChar, yearOf, ha, hb, hc, hd, h1.1, h1.2]
  · rcases monthCode_cases m1 m2 hm with ⟨rfl, h | h | h | h | h | h | h | h | h⟩ |
      ⟨rfl, h | h | h⟩ <;> subst h <;> rfl
  · rfl
  · rcases monthCode_cases m1 m2 hm with ⟨rfl, h | h | h | h | h | h | h | h | h⟩ |
      ⟨rfl, h | h | h⟩ <;> subst h <;> rfl
  · rfl
  · rcases monthCode_cases m1 m2 hm with ⟨rfl, h | h | h | h | h | h | h | h | h⟩ |
      ⟨rfl, h | h | h⟩ <;> subst h <;> rfl

theorem getD_mem_isPeriod (ps : List String) (hwf : ∀ p ∈ ps, isPeriod p = true)
    (i : Nat) (hi : i < ps.length) : isPeriod (ps.getD i "") = true := by
  rw [List.getD_eq_getElem ps "" hi]
  exact hwf _ (List.getElem_mem hi)

theorem map_str_getD (ps : List String) (i : Nat) (hi : i < ps.length) :
    ((ps.map JVal.str).get? i).getD .undefined = .str (ps.getD i "") := by
  simp [List.getD_eq_getElem ps "" hi, List.getElem?_eq_getElem, hi]

/-- The callback computes the label the policy prescribes. -/
theorem labelAt_wf (h : Host) (ps : List String) (hwf : ∀ p ∈ ps, isPeriod p = true)
    (i : Nat) (hi : i < ps.length) :
    labelAt h (ps.map .str) i (.str (ps.getD i "")) = some (.str (specLabel ps i)) := by
  obtain ⟨code, hs, hm, -⟩ := period_parts _ (getD_mem_isPeriod ps hwf i hi)
  unfold labelAt
  rw [hs]
  simp only [List.headD_cons, hm, templateText, Option.map_some']
  by_cases h0 : i = 0
  · simp [h0, specLabel]
  · have hi' : i - 1 < ps.length := by omega
    obtain ⟨code', hs', -⟩ := period_parts _ (getD_mem_isPeriod ps hwf (i - 1) hi')
    rw [if_neg h0, map_str_getD ps (i - 1) hi', hs']
    simp only [List.headD_cons, specLabel, h0, false_or, ne_eq, ite_not]
    split_ifs <;> rfl

/-- The index-passing map visits every position with its own index. -/
theorem mapLabels_wf (h : Host) (ps : List String) (hwf : ∀ p ∈ ps, isPeriod p = true) :
    ∀ (k i : Nat), i + k = ps.length →
      mapLabels h (ps.map .str) i ((ps.map .str).drop i) =
        some ((List.range' i k).map (fun j => JVal.str (specLabel ps j))) := by
  intro k
  induction k with
  | zero =>
    intro i hik
    have : (ps.map JVal.str).drop i = [] := by
      apply List.drop_eq_nil_of_le; simp; omega
    rw [this]; rfl
  | succ k ih =>
    intro i hik
    have hi : i < ps.length := by omega
    have hd : (ps.map JVal.str).drop i =
        .str (ps.getD i "") :: (ps.map JVal.str).drop (i + 1) := by
      rw [List.drop_eq_getElem_cons (by simpa using hi)]
      rw [List.getD_eq_getElem ps "" hi]
      simp
    rw [hd]
    simp only [mapLabels, labelAt_wf h ps hwf i hi, ih (i + 1) (by omega)]
    rfl

/-- A well-formed period is determined by its year and its month
abbreviation. -/
theorem period_eq_of_parts (p q : String) (hp : isPeriod p = true) (hq : isPeriod q = true)
    (ha : abbrOf p = abbrOf q) (hy : yearOf p = yearOf q) : p = q := by
  obtain ⟨c, -, -, hpd, hc, -⟩ := period_parts p hp
  obtain ⟨c', -, -, hqd, hc', -⟩ := period_parts q hq
  have hcc : c = c' := by rw [hc, hc', ha]
  apply String.ext
  rw [hpd, hqd, hy, hcc]

/-- A label with a year suffix determines both the abbreviation and the year. -/
theorem long_label_inj (p q : String) (hp : isPeriod p = true) (hq : isPeriod q = true)
    (he : abbrOf p ++ " " ++ yearOf p = abbrOf q ++ " " ++ yearOf q) :
    abbrOf p = abbrOf q ∧ yearOf p = yearOf q := by
  obtain ⟨-, -, -, -, -, -, hpa⟩ := period_parts p hp
  obtain ⟨-, -, -, -, -, -, hqa⟩ := period_parts q hq
  have hd := congrArg String.data he
  simp only [String.data_append, List.append_assoc] at hd
  obtain ⟨h1, h2⟩ := List.append_inj hd (by rw [hpa, hqa])
  refine ⟨String.ext h1, String.ext ?_⟩
  exact (List.append_inj h2 rfl).2

/-- A label with a year suffix is never a bare abbreviation. -/
theorem long_label_ne_short (p q : String) (hp : isPeriod p = true) (hq : isPeriod q = true) :
    abbrOf p ++ " " ++ yearOf p ≠ abbrOf q := by
  obtain ⟨-, -, -, -, -, hpy, hpa⟩ := period_parts p hp
  obtain ⟨-, -, -, -, -, -, hqa⟩ := period_parts q hq
  intro he
  have hd := congrArg (fun s => s.data.length) he
  simp only [String.data_append, List.length_append, hpy, hpa, hqa] at hd
  simp at hd

/-- On well-formed periods the function returns the prescribed labels, index
by index. -/
theorem generateTemporalLabels_wf (h : Host) (ps : List String)
    (hwf : ∀ p ∈ ps, isPeriod p = true) :
    generateTemporalLabels h (.arr (ps.map .str)) =
      some (.arr (((List.range' 0 ps.length).map (specLabel ps)).map .str)) := by
  have hm := mapLabels_wf h ps hwf ps.length 0 (by simp)
  rw [List.drop_zero] at hm
  unfold generateTemporalLabels
  simp only [truthy, Bool.true_eq_false, if_false, List.length_map]
  split_ifs with h0
  · simp [List.length_eq_zero.mp h0]
  · rw [hm]
    simp [List.map_map, Function.comp_def]

/-- Equal prescribed labels at an index whose predecessors agree force equal
periods at that index. -/
theorem specLabel_inj_step (ps qs : List String) (hps : ∀ p ∈ ps, isPeriod p = true)
    (hqs : ∀ q ∈ qs, isPeriod q = true) (hlen : ps.length = qs.length)
    (i : Nat) (hi : i < ps.length)
    (hprev : i ≠ 0 → ps.getD (i - 1) "" = qs.getD (i - 1) "")
    (he : specLabel ps i = specLabel qs i) : ps.getD i "" = qs.getD i "" := by
  have wp := getD_mem_isPeriod ps hps i hi
  have wq := getD_mem_isPeriod qs hqs i (hlen ▸ hi)
  unfold specLabel at he
  by_cases h0 : i = 0
  · simp only [h0, true_or, if_true] at he
    subst h0
    obtain ⟨ha, hy⟩ := long_label_inj _ _ wp wq he
    exact period_eq_of_parts _ _ wp wq ha hy
  · have hpv := hprev h0
    simp only [h0, false_or, ne_eq, ite_not] at he
    rw [← hpv] at he
    split_ifs at he with h1 h2 h2
    · exact period_eq_of_parts _ _ wp wq he (h1.trans h2.symm)
    · exact absurd he.symm (long_label_ne_short _ _ wq wp)
    · exact absurd he (long_label_ne_short _ _ wp wq)
    · obtain ⟨ha, hy⟩ := long_label_inj _ _ wp wq he
      exact period_eq_of_parts _ _ wp wq ha hy

/-! ## Lemmas on property reads -/

theorem objGet_of_own (kvs : List (String × JVal)) (key : String) (v : JVal)
    (hv : ownProp kvs key = some v) : objGet kvs key = v := by
  simp [objGet, hv]

theorem objGet_of_absent (kvs : List (String × JVal)) (key : String)
    (hk : key ∉ objectProtoKeys) (hv : ownProp kvs key = none) :
    objGet kvs key = .undefined := by
  simp [objGet, hv, hk]

theorem optGet_null (h : Host) (key : String) : optGet h .null key = .undefined := rfl

theorem optGet_undefined (h : Host) (key : String) :
    optGet h .undefined key = .undefined := rfl

theorem optGet_obj (h : Host) (kvs : List (String × JVal)) (key : String) :
    optGet h (.obj kvs) key = objGet kvs key := rfl

theorem jsOr_undefined (d : JVal) : jsOr .undefined d = d := rfl

theorem jsOr_truthy (v d : JVal) (hv : truthy v = true) : jsOr v d = v := by
  simp [jsOr, hv]

theorem jsOr_falsy (v d : JVal) (hv : truthy v = false) : jsOr v d = d := by
  simp [jsOr, hv]

/-- A section read `dataset?.key || dflt` for a key that is not an inherited
member: the default when the dataset is `null` or lacks the key or holds a
falsy value under it, the held value otherwise. -/
theorem section_read (h : Host) (d : JVal) (key : String) (dflt : JVal)
    (hk : key ∉ objectProtoKeys) :
    (d = .null → jsOr (optGet h d key) dflt = dflt) ∧
    (∀ kvs, d = .obj kvs → ownProp kvs key = none → jsOr (optGet h d key) dflt = dflt) ∧
    (∀ kvs v, d = .obj kvs → ownProp kvs key = some v → truthy v = true →
      jsOr (optGet h d key) dflt = v) ∧
    (∀ kvs v, d = .obj kvs → ownProp kvs key = some v → truthy v = false →
      jsOr (optGet h d key) dflt = dflt) := by
  refine ⟨?_, ?_, ?_, ?_⟩
  · rintro rfl; rfl
  · rintro kvs rfl hv
    rw [optGet_obj, objGet_of_absent kvs key hk hv]; rfl
  · rintro kvs v rfl hv ht
    rw [optGet_obj, objGet_of_own kvs key v hv, jsOr_truthy v dflt ht]
  · rintro kvs v rfl hv ht
    rw [optGet_obj, objGet_of_own kvs key v hv, jsOr_falsy v dflt ht]

/-! ## Lemmas on the club projection -/

theorem formatClub_obj (h : Host) (c : List (String × JVal)) :
    formatClub h (.obj c) =
      some (.obj [("name", objGet c "name"), ("distance", objGet c "distance"),
        ("deviation", objGet c "deviation"), ("speed", objGet c "speed"),
        ("rating", objGet c "rating"), ("category", objGet c "category")]) := rfl

theorem mapM_formatClub (h : Host) (cs : List (List (String × JVal))) :
    (cs.map JVal.obj).mapM (formatClub h) =
      some (cs.map (fun c => JVal.obj
        [("name", objGet c "name"), ("distance", objGet c "distance"),
         ("deviation", objGet c "deviation"), ("speed", objGet c "speed"),
         ("rating", objGet c "rating"), ("category", objGet c "category")])) := by
  induction cs with
  | nil => rfl
  | cons c cs ih =>
    simp only [List.map_cons, List.mapM_cons, formatClub_obj, ih]
    rfl

/-! ## Lemmas on the per-club series -/

theorem getTemporalEvolution_null (h : Host) (w : World) (hd : w.dashboardData = .null) :
    getTemporalEvolution h w = .obj [] := by
  simp [getTemporalEvolution, hd, optGet_null, jsOr_undefined]

theorem getTemporalEvolution_absent (h : Host) (w : World) (kvs : List (String × JVal))
    (hd : w.dashboardData = .obj kvs) (ha : ownProp kvs "temporal_evolution" = none) :
    getTemporalEvolution h w = .obj [] := by
  simp [getTemporalEvolution, hd, optGet_obj,
    objGet_of_absent kvs "temporal_evolution" (by decide) ha, jsOr_undefined]

theorem getTemporalEvolution_present (h : Host) (w : World) (kvs t : List (String × JVal))
    (hd : w.dashboardData = .obj kvs)
    (ht : ownProp kvs "temporal_evolution" = some (.obj t)) :
    getTemporalEvolution h w = .obj t := by
  rw [getTemporalEvolution, hd, optGet_obj, objGet_of_own kvs "temporal_evolution" _ ht]
  rfl

/-- The series read from a mapping `t` under a club code that is not the
name of an inherited member: empty when `t` has no such key, the formatted
entry when it holds a record there. -/
theorem getClubTemporalData_ownKey (h : Host) (w : World) (t : List (String × JVal))
    (clubCode : String) (ht : getTemporalEvolution h w = .obj t)
    (hk : clubCode ∉ objectProtoKeys) :
    (ownProp t clubCode = none →
      getClubTemporalData h w clubCode =
        some (.obj [("labels", .arr []), ("values", .arr [])])) ∧
    (∀ raw, ownProp t clubCode = some (.obj raw) →
      getClubTemporalData h w clubCode =
        (generateTemporalLabels h (objGet raw "labels")).map
          (fun labels => JVal.obj [("labels", labels), ("values", objGet raw "values")])) := by
  refine ⟨?_, ?_⟩
  · intro ha
    simp [getClubTemporalData, ht, getProp, objGet_of_absent t clubCode hk ha, truthy]
  · intro raw hr
    simp [getClubTemporalData, ht, getProp, objGet_of_own t clubCode _ hr, truthy]

/-! ## Lemmas on loading -/

theorem loadDashboardData_failed (f : FetchResult) (w : World) (hf : f.failed = true) :
    loadDashboardData f w = (w, some .null) := by
  cases f with
  | rejected => rfl
  | response ok json =>
    cases ok with
    | false => rfl
    | true =>
      cases json with
      | none => rfl
      | some d => simp [FetchResult.failed] at hf

theorem loadDashboardData_parsed (d : JVal) (w : World) :
    loadDashboardData (.response true (some d)) w =
      ({ w with dashboardData := d }, some d) := rfl

/-! ## Lemmas on the document -/

theorem firstMatch_zero (e : Element) (es : List Element) (s : String) :
    FirstMatch (e :: es) 0 s ↔ e.dataStat = some s := by
  constructor
  · rintro ⟨⟨e', he', hs⟩, -⟩
    simp only [List.get?_cons_zero, Option.some.injEq] at he'
    rw [he']; exact hs
  · intro hs
    exact ⟨⟨e, rfl, hs⟩, fun j _ hj => absurd hj (Nat.not_lt_zero j)⟩

theorem firstMatch_succ (e : Element) (es : List Element) (i : Nat) (s : String) :
    FirstMatch (e :: es) (i + 1) s ↔ e.dataStat ≠ some s ∧ FirstMatch es i s := by
  constructor
  · rintro ⟨⟨e', he', hs⟩, hlt⟩
    refine ⟨hlt 0 e (Nat.succ_pos i) rfl, ⟨e', by simpa using he', hs⟩, ?_⟩
    intro j x hj hx
    exact hlt (j + 1) x (Nat.succ_lt_succ hj) (by simpa using hx)
  · rintro ⟨hne, ⟨e', he', hs⟩, hlt⟩
    refine ⟨⟨e', by simpa using he', hs⟩, ?_⟩
    intro j x hj hx
    cases j with
    | zero =>
      simp only [List.get?_cons_zero, Option.some.injEq] at hx
      rw [← hx]; exact hne
    | succ j => exact hlt j x (Nat.lt_of_succ_lt_succ hj) (by simpa using hx)

/-- One `setFirst` step, position by position. -/
theorem setFirst_get (s t : String) :
    ∀ (els : List Element) (i : Nat) (e : Element), els.get? i = some e →
      ∃ e', (setFirst s t els).get? i = some e' ∧ e'.dataStat = e.dataStat ∧
        (FirstMatch els i s → e'.text = t) ∧ (¬ FirstMatch els i s → e' = e) := by
  intro els
  induction els with
  | nil => intro i e he; simp at he
  | cons x xs ih =>
    intro i e he
    by_cases hx : x.dataStat = some s
    · cases i with
      | zero =>
        simp only [List.get?_cons_zero, Option.some.injEq] at he
        subst he
        refine ⟨{ x with text := t }, by simp [setFirst, hx], rfl, fun _ => rfl, ?_⟩
        intro hn
        exact absurd ((firstMatch_zero x xs s).mpr hx) hn
      | succ i =>
        refine ⟨e, ?_, rfl, ?_, fun _ => rfl⟩
        · simpa [setFirst, hx] using he
        · intro hf
          exact absurd hx ((firstMatch_succ x xs i s).mp hf).1
    · cases i with
      | zero =>
        simp only [List.get?_cons_zero, Option.some.injEq] at he
        subst he
        refine ⟨x, by simp [setFirst, hx], rfl, ?_, fun _ => rfl⟩
        intro hf
        exact absurd ((firstMatch_zero x xs s).mp hf) hx
      | succ i =>
        obtain ⟨e', h1, h2, h3, h4⟩ := ih i e (by simpa using he)
        refine ⟨e', by simpa [setFirst, hx] using h1, h2, ?_, ?_⟩
        · intro hf
          exact h3 ((firstMatch_succ x xs i s).mp hf).2
        · intro hn
          exact h4 (fun hf => hn ((firstMatch_succ x xs i s).mpr ⟨hx, hf⟩))

theorem setFirst_noMatch (s t : String) (els : List Element)
    (hn : ∀ e ∈ els, e.dataStat ≠ some s) : setFirst s t els = els := by
  induction els with
  | nil => rfl
  | cons x xs ih =>
    have hx : x.dataStat ≠ some s := hn x (List.mem_cons_self x xs)
    simp only [setFirst, hx, if_false]
    rw [ih (fun e he => hn e (List.mem_cons_of_mem x he))]

theorem setFirst_length (s t : String) (els : List Element) :
    (setFirst s t els).length = els.length := by
  induction els with
  | nil => rfl
  | cons x xs ih =>
    by_cases hx : x.dataStat = some s
    · simp [setFirst, hx]
    · simp [setFirst, hx, ih]

/-- Being the first match only depends on the `data-stat` attributes, which a
`setFirst` step keeps. -/
theorem firstMatch_setFirst (s t : String) (els : List Element) (i : Nat) (k : String) :
    FirstMatch (setFirst s t els) i k ↔ FirstMatch els i k := by
  constructor
  · rintro ⟨⟨e', he', hk⟩, hlt⟩
    have hi : i < els.length := by
      rw [← setFirst_length s t els]
      exact List.get?_eq_some.mp he' |>.1
    obtain ⟨x, hx⟩ : ∃ x, els.get? i = some x := ⟨els.get ⟨i, hi⟩, List.get?_eq_get hi⟩
    obtain ⟨e'', h1, h2, -, -⟩ := setFirst_get s t els i x hx
    rw [h1] at he'
    simp only [Option.some.injEq] at he'
    subst he'
    refine ⟨⟨x, hx, by rw [← h2]; exact hk⟩, ?_⟩
    intro j y hj hy
    obtain ⟨y', g1, g2, -, -⟩ := setFirst_get s t els j y hy
    rw [← g2]
    exact hlt j y' hj g1
  · rintro ⟨⟨x, hx, hk⟩, hlt⟩
    obtain ⟨e', h1, h2, -, -⟩ := setFirst_get s t els i x hx
    refine ⟨⟨e', h1, by rw [h2]; exact hk⟩, ?_⟩
    intro j y hj hy
    have hjl : j < els.length := by
      rw [← setFirst_length s t els]
      exact List.get?_eq_some.mp hy |>.1
    obtain ⟨z, hz⟩ : ∃ z, els.get? j = some z := ⟨els.get ⟨j, hjl⟩, List.get?_eq_get hjl⟩
    obtain ⟨y', g1, g2, -, -⟩ := setFirst_get s t els j z hz
    rw [g1] at hy
    simp only [Option.some.injEq] at hy
    subst hy
    rw [g2]
    exact hlt j z hj hz

theorem setFirstAll_length (kts : List (String × String)) :
    ∀ els : List Element, (setFirstAll kts els).length = els.length := by
  induction kts with
  | nil => intro els; rfl
  | cons kt rest ih =>
    intro els
    show (setFirstAll rest (setFirst kt.1 kt.2 els)).length = els.length
    rw [ih, setFirst_length]

/-- A run of `setFirst` steps with pairwise distinct selector values, position
by position: the first match of a selector receives that selector's text, and
a position that is the first match of none keeps its element. -/
theorem setFirstAll_get (kts : List (String × String)) (hd : (kts.map Prod.fst).Nodup) :
    ∀ (els : List Element) (i : Nat) (e : Element), els.get? i = some e →
      ∃ e', (setFirstAll kts els).get? i = some e' ∧ e'.dataStat = e.dataStat ∧
        (∀ kt ∈ kts, FirstMatch els i kt.1 → e'.text = kt.2) ∧
        ((∀ kt ∈ kts, ¬ FirstMatch els i kt.1) → e' = e) := by
  induction kts with
  | nil =>
    intro els i e he
    exact ⟨e, he, rfl, fun kt hkt => absurd hkt (List.not_mem_nil kt), fun _ => rfl⟩
  | cons kt rest ih =>
    intro els i e he
    simp only [List.map_cons, List.nodup_cons] at hd
    obtain ⟨hnot, hrest⟩ := hd
    obtain ⟨e1, h1, h2, h3, h4⟩ := setFirst_get kt.1 kt.2 els i e he
    obtain ⟨e', g1, g2, g3, g4⟩ := ih hrest (setFirst kt.1 kt.2 els) i e1 h1
    refine ⟨e', g1, g2.trans h2, ?_, ?_⟩
    · intro kt' hkt' hf
      rcases List.mem_cons.mp hkt' with rfl | hin
      · have hnone : ∀ r ∈ rest, ¬ FirstMatch (setFirst kt'.1 kt'.2 els) i r.1 := by
          intro r hr hfr
          have hfr' := (firstMatch_setFirst kt'.1 kt'.2 els i r.1).mp hfr
          obtain ⟨⟨x, hx, hxs⟩, -⟩ := hf
          obtain ⟨⟨y, hy, hys⟩, -⟩ := hfr'
          rw [hx] at hy
          simp only [Option.some.injEq] at hy
          subst hy
          rw [hxs] at hys
          simp only [Option.some.injEq] at hys
          exact hnot (hys ▸ List.mem_map_of_mem Prod.fst hr)
        rw [g4 hnone]
        exact h3 hf
      · exact g3 kt' hin ((firstMatch_setFirst kt.1 kt.2 els i kt'.1).mpr hf)
    · intro hall
      have hnone : ∀ r ∈ rest, ¬ FirstMatch (setFirst kt.1 kt.2 els) i r.1 := by
        intro r hr hfr
        exact hall r (List.mem_cons_of_mem kt hr)
          ((firstMatch_setFirst kt.1 kt.2 els i r.1).mp hfr)
      rw [g4 hnone]
      exact h4 (hall kt (List.mem_cons_self kt rest))

theorem updateElement_of_text (h : Host) (stat : String) (v : JVal) (t : String)
    (els : List Element) (ht : domText h v = some t) :
    updateElement h stat v els = some (setFirst stat t els) := by
  unfold updateElement
  split_ifs with ha
  · rw [ht]; rfl
  · rw [setFirst_noMatch]
    intro e he hs
    apply ha
    simp only [List.any_eq_true, decide_eq_true_eq]
    exact ⟨e, he, hs⟩

/-- A selector that matches no element: the update is skipped, whatever the
value. -/
theorem updateElement_noMatch (h : Host) (stat : String) (v : JVal) (els : List Element)
    (hn : ∀ e ∈ els, e.dataStat ≠ some stat) : updateElement h stat v els = some els := by
  unfold updateElement
  rw [if_neg]
  simp only [List.any_eq_true, decide_eq_true_eq, not_exists, not_and]
  exact hn

theorem domText_scalar (h : Host) (v : JVal) (hv : isScalar v = true) :
    ∃ t, domText h v = some t := by
  cases v with
  | undefined => exact ⟨_, rfl⟩
  | null => exact ⟨_, rfl⟩
  | bool b => exact ⟨_, rfl⟩
  | num n => exact ⟨_, rfl⟩
  | str s => exact ⟨_, rfl⟩
  | arr xs => simp [isScalar] at hv
  | obj kvs => simp [isScalar] at hv
  | native n => simp [isScalar] at hv

theorem toNumber_scalar (h : Host) (v : JVal) (hv : isScalar v = true) :
    ∃ n, toNumber h v = some n := by
  cases v with
  | undefined => exact ⟨_, rfl⟩
  | null => exact ⟨_, rfl⟩
  | bool b => exact ⟨_, rfl⟩
  | num n => exact ⟨_, rfl⟩
  | str s => exact ⟨_, rfl⟩
  | arr xs => simp [isScalar] at hv
  | obj kvs => simp [isScalar] at hv
  | native n => simp [isScalar] at hv

theorem getPlayerStats_truthy (h : Host) (w : World) :
    truthy (getPlayerStats h w) = true := by
  unfold getPlayerStats jsOr
  split_ifs with ht
  · exact ht
  · rfl

theorem getProp_of_truthy (h : Host) (v : JVal) (key : String) (hv : truthy v = true) :
    getProp h v key = some (optGet h v key) := by
  cases v with
  | undefined => simp [truthy] at hv
  | null => simp [truthy] at hv
  | bool b => rfl
  | num n => rfl
  | str s => rfl
  | arr xs => rfl
  | obj kvs => rfl
  | native n =>
    unfold optGet
    cases hg : getProp h (.native n) key with
    | none =>
      unfold getProp at hg
      split_ifs at hg
    | some x => rfl

/-- With scalar metrics `updateDashboardElements` completes, and the elements
it leaves are five `setFirst` steps on the ones it found. -/
theorem updateDashboardElements_scalar (h : Host) (w : World)
    (t1 t2 t3 t5 : String) (n : JNum)
    (h1 : domText h (optGet h (getPlayerStats h w) "handicap_actual") = some t1)
    (h2 : domText h (optGet h (getPlayerStats h w) "total_rondas") = some t2)
    (h3 : domText h (optGet h (getPlayerStats h w) "mejor_score") = some t3)
    (h4 : toNumber h (optGet h (getPlayerStats h w) "promedio_score") = some n)
    (h5 : domText h (optGet h (getPlayerStats h w) "mejora_handicap") = some t5) :
    updateDashboardElements h w = some { w with elements :=
      (setFirstAll [("handicap", t1), ("total-rondas", t2), ("mejor-score", t3),
        ("promedio-score", numText h (roundNum n)), ("mejora-handicap", t5)] w.elements) } := by
  have hp := getPlayerStats_truthy h w
  have h4' : domText h (.num (roundNum n)) = some (numText h (roundNum n)) := rfl
  simp only [updateDashboardElements, getProp_of_truthy h _ _ hp, Option.bind_eq_bind,
    Option.some_bind, updateElement_of_text h _ _ _ _ h1, updateElement_of_text h _ _ _ _ h2,
    updateElement_of_text h _ _ _ _ h3, mathRound, h4, Option.map_some',
    updateElement_of_text h _ _ _ _ h4', updateElement_of_text h _ _ _ _ h5]
  rfl

/-- A completed `updateElement` is a `setFirst` step, whose text is the
converted value whenever the selector has a first match. -/
theorem updateElement_some (h : Host) (stat : String) (v : JVal)
    (els els' : List Element) (hu : updateElement h stat v els = some els') :
    ∃ t, els' = setFirst stat t els ∧ (∀ i, FirstMatch els i stat → domText h v = some t) := by
  unfold updateElement at hu
  split_ifs at hu with ha
  · cases hd : domText h v with
    | none => rw [hd] at hu; cases hu
    | some t =>
      rw [hd] at hu
      simp only [Option.map_some', Option.some.injEq] at hu
      exact ⟨t, hu.symm, fun _ _ => rfl⟩
  · simp only [Option.some.injEq] at hu
    subst hu
    have hn : ∀ e ∈ els, e.dataStat ≠ some stat := by
      intro e he hs
      apply ha
      simp only [List.any_eq_true, decide_eq_true_eq]
      exact ⟨e, he, hs⟩
    refine ⟨"", (setFirst_noMatch stat "" els hn).symm, ?_⟩
    rintro i ⟨⟨e, he, hs⟩, -⟩
    exact absurd hs (hn e (List.get?_mem he))

/-- Whenever `updateDashboardElements` completes, the elements it leaves are
five `setFirst` steps on the ones it found, each text being the converted
metric wherever its selector has a first match. -/
theorem updateDashboardElements_some (h : Host) (w w' : World)
    (hu : updateDashboardElements h w = some w') :
    ∃ t1 t2 t3 t5 n,
      w' = { w with elements :=
        (setFirstAll [("handicap", t1), ("total-rondas", t2), ("mejor-score", t3),
          ("promedio-score", numText h (roundNum n)), ("mejora-handicap", t5)] w.elements) } ∧
      toNumber h (optGet h (getPlayerStats h w) "promedio_score") = some n ∧
      (∀ i, FirstMatch w.elements i "handicap" →
        domText h (optGet h (getPlayerStats h w) "handicap_actual") = some t1) ∧
      (∀ i, FirstMatch w.elements i "total-rondas" →
        domText h (optGet h (getPlayerStats h w) "total_rondas") = some t2) ∧
      (∀ i, FirstMatch w.elements i "mejor-score" →
        domText h (optGet h (getPlayerStats h w) "mejor_score") = some t3) ∧
      (∀ i, FirstMatch w.elements i "mejora-handicap" →
        domText h (optGet h (getPlayerStats h w) "mejora_handicap") = some t5) := by
  have hp := getPlayerStats_truthy h w
  simp only [updateDashboardElements, getProp_of_truthy h _ _ hp, Option.bind_eq_bind,
    Option.some_bind, mathRound] at hu
  obtain ⟨e1, he1, hu⟩ := Option.bind_eq_some.mp hu
  obtain ⟨e2, he2, hu⟩ := Option.bind_eq_some.mp hu
  obtain ⟨e3, he3, hu⟩ := Option.bind_eq_some.mp hu
  obtain ⟨r, hr, hu⟩ := Option.bind_eq_some.mp hu
  obtain ⟨e4, he4, hu⟩ := Option.bind_eq_some.mp hu
  obtain ⟨e5, he5, hu⟩ := Option.bind_eq_some.mp hu
  obtain ⟨n, hn, rfl⟩ := Option.map_eq_some'.mp hr
  obtain ⟨t1, rfl, c1⟩ := updateElement_some h _ _ _ _ he1
  obtain ⟨t2, rfl, c2⟩ := updateElement_some h _ _ _ _ he2
  obtain ⟨t3, rfl, c3⟩ := updateElement_some h _ _ _ _ he3
  obtain ⟨t4, rfl, c4⟩ := updateElement_some h _ _ _ _ he4
  obtain ⟨t5, rfl, c5⟩ := updateElement_some h _ _ _ _ he5
  simp only [Option.some.injEq] at hu
  have ht4 : setFirst "promedio-score" t4
        (setFirst "mejor-score" t3 (setFirst "total-rondas" t2
          (setFirst "handicap" t1 w.elements))) =
      setFirst "promedio-score" (numText h (roundNum n))
        (setFirst "mejor-score" t3 (setFirst "total-rondas" t2
          (setFirst "handicap" t1 w.elements))) := by
    by_cases hex : ∃ i, FirstMatch (setFirst "mejor-score" t3 (setFirst "total-rondas" t2
          (setFirst "handicap" t1 w.elements))) i "promedio-score"
    · obtain ⟨i, hi⟩ := hex
      have := c4 i hi
      simp only [domText, templateText, Option.some.injEq] at this
      rw [this]
    · have hn' : ∀ e ∈ (setFirst "mejor-score" t3 (setFirst "total-rondas" t2
          (setFirst "handicap" t1 w.elements))), e.dataStat ≠ some "promedio-score" := by
        intro e he hs
        obtain ⟨i, hi⟩ := List.get?_of_mem he
        have hfind : ∃ j, FirstMatch (setFirst "mejor-score" t3 (setFirst "total-rondas" t2
            (setFirst "handicap" t1 w.elements))) j "promedio-score" := by
          induction i using Nat.strong_induction_on generalizing e with
          | _ i ih =>
            by_cases hb : ∃ j e', j < i ∧ (setFirst "mejor-score" t3
                (setFirst "total-rondas" t2 (setFirst "handicap" t1 w.elements))).get? j =
                  some e' ∧ e'.dataStat = some "promedio-score"
            · obtain ⟨j, e', hj, he', hs'⟩ := hb
              exact ih j hj e' (List.get?_mem he') hs' he'
            · refine ⟨i, ⟨e, hi, hs⟩, ?_⟩
              intro j e' hj he' hs'
              exact hb ⟨j, e', hj, he', hs'⟩
        exact hex hfind
      rw [setFirst_noMatch _ _ _ hn', setFirst_noMatch _ _ _ hn']
  refine ⟨t1, t2, t3, t5, n, ?_, hn, ?_, ?_, ?_, ?_⟩
  · rw [← hu, ht4]
    rfl
  · intro i hf
    exact c1 i hf
  · intro i hf
    exact c2 i ((firstMatch_setFirst _ _ _ _ _).mpr hf)
  · intro i hf
    exact c3 i ((firstMatch_setFirst _ _ _ _ _).mpr
      ((firstMatch_setFirst _ _ _ _ _).mpr hf))
  · intro i hf
    exact c5 i ((firstMatch_setFirst _ _ _ _ _).mpr ((firstMatch_setFirst _ _ _ _ _).mpr
      ((firstMatch_setFirst _ _ _ _ _).mpr ((firstMatch_setFirst _ _ _ _ _).mpr hf))))

/-! ## Lemmas on rounding and on initialisation -/

/-- Function `Math.round` picks an integer within one half of its argument, the upper
one on a tie. -/
theorem round_nearest (q : ℚ) :
    ((Rat.floor (q + 1 / 2) : ℤ) : ℚ) - 1 / 2 ≤ q ∧
      q < ((Rat.floor (q + 1 / 2) : ℤ) : ℚ) + 1 / 2 := by
  have h1 : ((⌊q + 1 / 2⌋ : ℤ) : ℚ) ≤ q + 1 / 2 := Int.floor_le _
  have h2 : q + 1 / 2 < ((⌊q + 1 / 2⌋ : ℤ) : ℚ) + 1 := Int.lt_floor_add_one _
  have he : Rat.floor (q + 1 / 2) = ⌊q + 1 / 2⌋ := rfl
  rw [he]
  constructor <;> linarith

/-- The average 82.4 is shown as `82`. -/
theorem round_sample (h : Host) : numText h (roundNum (.fin (412 / 5))) = "82" := by
  have hf : Rat.floor ((412 : ℚ) / 5 + 1 / 2) = 82 := by norm_num [Rat.floor_def']
  simp only [roundNum, hf, numText]
  rw [if_pos (by constructor <;> simp)]
  simp [intText]
  decide

/-- A natural number up to `2^53` prints as its decimal digits. -/
theorem numText_nat (h : Host) (n : ℕ) (hn : n ≤ 2 ^ 53) :
    numText h (.fin (n : ℚ)) = Nat.repr n := by
  simp only [numText]
  have hn' : n ≤ 9007199254740992 := by norm_num at hn; exact hn
  rw [if_pos (by constructor <;> simp [hn'])]
  simp [intText]

/-- With `club_statistics` absent or a sequence of records the projection
completes. -/
theorem getFormattedClubData_total (h : Host) (w : World) (kvs : List (String × JVal))
    (hd : w.dashboardData = .obj kvs)
    (hclubs : ownProp kvs "club_statistics" = none ∨
      ∃ cs : List (List (String × JVal)),
        ownProp kvs "club_statistics" = some (.arr (cs.map .obj))) :
    ∃ clubs, getFormattedClubData h w = some clubs := by
  rcases hclubs with ha | ⟨cs, hc⟩
  · refine ⟨.arr [], ?_⟩
    simp only [getFormattedClubData, getClubStatistics, hd, optGet_obj,
      objGet_of_absent kvs "club_statistics" (by decide) ha, jsOr_undefined]
    rfl
  · have hj : jsOr (JVal.arr (cs.map JVal.obj)) (.arr []) = .arr (cs.map JVal.obj) :=
      jsOr_truthy _ _ rfl
    have hg : getFormattedClubData h w = some (.arr (cs.map (fun c => JVal.obj
        [("name", objGet c "name"), ("distance", objGet c "distance"),
         ("deviation", objGet c "deviation"), ("speed", objGet c "speed"),
         ("rating", objGet c "rating"), ("category", objGet c "category")]))) := by
      simp only [getFormattedClubData, getClubStatistics, hd, optGet_obj,
        objGet_of_own kvs "club_statistics" _ hc, hj, mapM_formatClub]
      rfl
    exact ⟨_, hg⟩

/-- The synchronisation of the sample page, evaluated. -/
theorem updateDashboardElements_sampleWorld :
    updateDashboardElements bareHost sampleWorld =
      some { sampleWorld with elements :=
        [⟨some "handicap", "23"⟩, ⟨none, "Resumen"⟩, ⟨some "handicap", "--"⟩,
         ⟨some "promedio-score", "82"⟩] } := by
  have e23 : numText bareHost (.fin 23) = "23" := by
    have := numText_nat bareHost 23 (by norm_num)
    simpa using this
  have e52 : numText bareHost (.fin 52) = "52" := by
    have := numText_nat bareHost 52 (by norm_num)
    simpa using this
  have e78 : numText bareHost (.fin 78) = "78" := by
    have := numText_nat bareHost 78 (by norm_num)
    simpa using this
  have e3 : numText bareHost (.fin 3) = "3" := by
    have := numText_nat bareHost 3 (by norm_num)
    simpa using this
  have h1 : domText bareHost (optGet bareHost (getPlayerStats bareHost sampleWorld)
      "handicap_actual") = some "23" := by rw [← e23]; rfl
  have h2 : domText bareHost (optGet bareHost (getPlayerStats bareHost sampleWorld)
      "total_rondas") = some "52" := by rw [← e52]; rfl
  have h3 : domText bareHost (optGet bareHost (getPlayerStats bareHost sampleWorld)
      "mejor_score") = some "78" := by rw [← e78]; rfl
  have h4 : toNumber bareHost (optGet bareHost (getPlayerStats bareHost sampleWorld)
      "promedio_score") = some (.fin (412 / 5)) := rfl
  have h5 : domText bareHost (optGet bareHost (getPlayerStats bareHost sampleWorld)
      "mejora_handicap") = some "3" := by rw [← e3]; rfl
  rw [updateDashboardElements_scalar bareHost sampleWorld "23" "52" "78" "3" _ h1 h2 h3 h4 h5,
    round_sample]
  rfl

/-- A successful fetch whose body parses to a falsy value: the value is stored,
and the test `if (data)` sends the call to its failure exit. -/
theorem initDashboardData_falsy (h : Host) (d : JVal) (w : World)
    (hd : truthy d = false) :
    initDashboardData h (.response true (some d)) w =
      some ({ w with dashboardData := d }, .null) := by
  simp only [initDashboardData, loadDashboardData_parsed, hd]
  rfl

/-! ## Temporal labels -/

/-- C1: on a list `ps` of well-formed `YYYY-MM` periods, `generateTemporalLabels`
returns a list of strings of the same length as `ps` (so `[]` for `[]`), whose
element at index `i` is `<Abbr> <YYYY>` when `i = 0` or the year of `ps[i]`
differs from the year of `ps[i-1]`, and `<Abbr>` alone otherwise, `<Abbr>`
being the Spanish abbreviation of the month of `ps[i]`; and
`["2024-09","2024-10","2025-01"]` gives `["Sep 2024","Oct","Ene 2025"]`. -/
theorem generateTemporalLabels_policy (h : Host) (ps : List String)
    (hwf : ∀ p ∈ ps, isPeriod p = true) :
    (∃ ls : List String,
      generateTemporalLabels h (.arr (ps.map .str)) = some (.arr (ls.map .str)) ∧
      ls.length = ps.length ∧
      ∀ i, i < ps.length →
        ls.get? i = some
          (if i = 0 ∨ yearOf (ps.getD i "") ≠ yearOf (ps.getD (i - 1) "") then
            abbrOf (ps.getD i "") ++ " " ++ yearOf (ps.getD i "")
          else abbrOf (ps.getD i ""))) ∧
    generateTemporalLabels h (.arr []) = some (.arr []) ∧
    generateTemporalLabels h (.arr [.str "2024-09", .str "2024-10", .str "2025-01"]) =
      some (.arr [.str "Sep 2024", .str "Oct", .str "Ene 2025"]) := by
  refine ⟨⟨(List.range' 0 ps.length).map (specLabel ps),
    generateTemporalLabels_wf h ps hwf, by simp, ?_⟩, rfl, rfl⟩
  intro i hi
  simp [List.getElem?_eq_getElem, hi, specLabel]

/-- C1 at `["2024-09","2024-10","2025-01"]`. -/
theorem generateTemporalLabels_policy_witness :
    (∀ p ∈ ["2024-09", "2024-10", "2025-01"], isPeriod p = true) ∧
    generateTemporalLabels bareHost (.arr [.str "2024-09", .str "2024-10", .str "2025-01"]) =
      some (.arr [.str "Sep 2024", .str "Oct", .str "Ene 2025"]) :=
  ⟨by decide,
   (generateTemporalLabels_policy bareHost ["2024-09", "2024-10", "2025-01"] (by decide)).2.2⟩

/-- C10: on lists of well-formed `YYYY-MM` periods `generateTemporalLabels` is
injective: equal label lists come from equal period lists. -/
theorem generateTemporalLabels_injective (h : Host) (ps qs : List String)
    (hps : ∀ p ∈ ps, isPeriod p = true) (hqs : ∀ q ∈ qs, isPeriod q = true)
    (heq : generateTemporalLabels h (.arr (ps.map .str)) =
      generateTemporalLabels h (.arr (qs.map .str))) : ps = qs := by
  rw [generateTemporalLabels_wf h ps hps, generateTemporalLabels_wf h qs hqs] at heq
  injection heq with heq
  injection heq with heq
  have hl : (List.range' 0 ps.length).map (specLabel ps) =
      (List.range' 0 qs.length).map (specLabel qs) :=
    List.map_injective_iff.mpr (fun a b hab => by injection hab) heq
  have hlen : ps.length = qs.length := by
    have := congrArg List.length hl
    simpa using this
  have hlab : ∀ i, i < ps.length → specLabel ps i = specLabel qs i := by
    intro i hi
    have := congrArg (fun l => l.getD i "") hl
    simpa [List.getD_eq_getElem?_getD, List.getElem?_eq_getElem, hi, hlen ▸ hi] using this
  have hall : ∀ i, i < ps.length → ps.getD i "" = qs.getD i "" := by
    intro i
    induction i using Nat.strong_induction_on with
    | _ i ih =>
      intro hi
      exact specLabel_inj_step ps qs hps hqs hlen i hi
        (fun _ => ih (i - 1) (by omega) (by omega)) (hlab i hi)
  apply List.ext_getElem hlen
  intro i h1 h2
  have := hall i h1
  rwa [List.getD_eq_getElem ps "" h1, List.getD_eq_getElem qs "" h2] at this

/-- C10 at two one-element lists. -/
theorem generateTemporalLabels_injective_witness :
    (∀ p ∈ ["2024-09", "2025-01"], isPeriod p = true) ∧
    (generateTemporalLabels bareHost (.arr (["2024-09", "2025-01"].map .str)) =
      generateTemporalLabels bareHost (.arr (["2024-09", "2025-01"].map .str))) ∧
    ["2024-09", "2025-01"] = ["2024-09", "2025-01"] :=
  ⟨by decide, rfl,
   generateTemporalLabels_injective bareHost _ _ (by decide) (by decide) rfl⟩

/-! ## Accessors -/

/-- C2: each of the seven section accessors returns its empty default (`{}`
for `getPlayerStats`, `getTemporalEvolution`, `getLaunchMetrics`,
`getDispersionAnalysis`, `getConsistencyBenchmarks`; `[]` for
`getClubStatistics`, `getCourseStatistics`) when the dataset is `null` or is a
document without that section, and returns the section when the document holds
one (every record and every sequence is truthy; a section holding a falsy value
reads as the default). -/
theorem accessors_default (h : Host) (w : World) (acc : Host → World → JVal)
    (key : String) (dflt : JVal)
    (hacc : (acc, key, dflt) ∈
      [(getPlayerStats, "player_stats", JVal.obj []),
       (getClubStatistics, "club_statistics", JVal.arr []),
       (getTemporalEvolution, "temporal_evolution", JVal.obj []),
       (getCourseStatistics, "course_statistics", JVal.arr []),
       (getLaunchMetrics, "launch_metrics", JVal.obj []),
       (getDispersionAnalysis, "dispersion_analysis", JVal.obj []),
       (getConsistencyBenchmarks, "consistency_benchmarks", JVal.obj [])]) :
    (w.dashboardData = .null → acc h w = dflt) ∧
    (∀ kvs, w.dashboardData = .obj kvs → ownProp kvs key = none → acc h w = dflt) ∧
    (∀ kvs v, w.dashboardData = .obj kvs → ownProp kvs key = some v → truthy v = true →
      acc h w = v) ∧
    (∀ kvs v, w.dashboardData = .obj kvs → ownProp kvs key = some v → truthy v = false →
      acc h w = dflt) ∧
    (∀ r, truthy (.obj r) = true) ∧ (∀ xs, truthy (.arr xs) = true) := by
  have key_ok : key ∉ objectProtoKeys ∧ acc h w = jsOr (optGet h w.dashboardData key) dflt := by
    simp only [List.mem_cons, Prod.mk.injEq, List.mem_nil_iff, or_false] at hacc
    rcases hacc with ⟨rfl, rfl, rfl⟩ | ⟨rfl, rfl, rfl⟩ | ⟨rfl, rfl, rfl⟩ | ⟨rfl, rfl, rfl⟩ |
      ⟨rfl, rfl, rfl⟩ | ⟨rfl, rfl, rfl⟩ | ⟨rfl, rfl, rfl⟩ <;> exact ⟨by decide, rfl⟩
  obtain ⟨hk, he⟩ := key_ok
  rw [he]
  obtain ⟨h1, h2, h3, h4⟩ := section_read h w.dashboardData key dflt hk
  exact ⟨h1, h2, h3, h4, fun _ => rfl, fun _ => rfl⟩

/-- C2 at `getClubStatistics` on a document that holds only `player_stats`. -/
theorem accessors_default_witness :
    ownProp [("player_stats", JVal.obj [])] "club_statistics" = none ∧
    getClubStatistics bareHost (worldOf (.obj [("player_stats", .obj [])])) = .arr [] :=
  ⟨rfl,
   (accessors_default bareHost (worldOf (.obj [("player_stats", .obj [])]))
      getClubStatistics "club_statistics" (.arr []) (by simp)).2.1
      [("player_stats", .obj [])] rfl rfl⟩

/-- C8, the claim as stated fails: on the dataset
`{"metadata": {"phase_5_enabled": 1}}` the call returns the number `1`, which
is neither `true` nor `false`. -/
theorem isPhase5Enabled_numeric_flag :
    isPhase5Enabled bareHost
        (worldOf (.obj [("metadata", .obj [("phase_5_enabled", .num (.fin 1))])])) =
      .num (.fin 1) ∧
    isPhase5Enabled bareHost
        (worldOf (.obj [("metadata", .obj [("phase_5_enabled", .num (.fin 1))])])) ≠
      .bool true ∧
    isPhase5Enabled bareHost
        (worldOf (.obj [("metadata", .obj [("phase_5_enabled", .num (.fin 1))])])) ≠
      .bool false := by
  have hv : isPhase5Enabled bareHost
      (worldOf (.obj [("metadata", .obj [("phase_5_enabled", .num (.fin 1))])])) =
      .num (.fin 1) := by
    have ht : truthy (.num (.fin 1)) = true := by simp [truthy]
    have ho : isPhase5Enabled bareHost
        (worldOf (.obj [("metadata", .obj [("phase_5_enabled", .num (.fin 1))])])) =
        jsOr (.num (.fin 1)) (.bool false) := rfl
    rw [ho, jsOr_truthy _ _ ht]
  refine ⟨hv, ?_, ?_⟩
  · rw [hv]; intro hc; cases hc
  · rw [hv]; intro hc; cases hc

/-- C8, amended: `isPhase5Enabled` returns `false` when the dataset is `null`,
when the document has no `metadata` or a `null` one, and when `metadata` has no
`phase_5_enabled` or a falsy one; a truthy flag is returned unchanged, so a
boolean flag is returned as that boolean; and whatever the flag holds, a result
of `true` means the flag is the boolean `true`. -/
theorem isPhase5Enabled_flag (h : Host) (w : World) :
    (w.dashboardData = .null → isPhase5Enabled h w = .bool false) ∧
    (∀ kvs, w.dashboardData = .obj kvs →
      (ownProp kvs "metadata" = none → isPhase5Enabled h w = .bool false) ∧
      (ownProp kvs "metadata" = some .null → isPhase5Enabled h w = .bool false) ∧
      (∀ m, ownProp kvs "metadata" = some (.obj m) →
        (ownProp m "phase_5_enabled" = none → isPhase5Enabled h w = .bool false) ∧
        (∀ b, ownProp m "phase_5_enabled" = some (.bool b) →
          isPhase5Enabled h w = .bool b) ∧
        (∀ v, ownProp m "phase_5_enabled" = some v → truthy v = false →
          isPhase5Enabled h w = .bool false) ∧
        (∀ v, ownProp m "phase_5_enabled" = some v → truthy v = true →
          isPhase5Enabled h w = v) ∧
        (isPhase5Enabled h w = .bool true →
          ownProp m "phase_5_enabled" = some (.bool true)))) := by
  refine ⟨?_, ?_⟩
  · intro hd
    simp [isPhase5Enabled, hd, optGet_null, optGet_undefined, jsOr_undefined]
  · intro kvs hd
    refine ⟨?_, ?_, ?_⟩
    · intro hm
      rw [isPhase5Enabled, hd, optGet_obj, objGet_of_absent kvs "metadata" (by decide) hm]
      rfl
    · intro hm
      rw [isPhase5Enabled, hd, optGet_obj, objGet_of_own kvs "metadata" _ hm]
      rfl
    · intro m hm
      have hr : isPhase5Enabled h w = jsOr (objGet m "phase_5_enabled") (.bool false) := by
        rw [isPhase5Enabled, hd, optGet_obj, objGet_of_own kvs "metadata" _ hm, optGet_obj]
      refine ⟨?_, ?_, ?_, ?_, ?_⟩
      · intro hf
        rw [hr, objGet_of_absent m "phase_5_enabled" (by decide) hf]
        rfl
      · intro b hf
        rw [hr, objGet_of_own m "phase_5_enabled" _ hf]
        cases b <;> rfl
      · intro v hf hv
        rw [hr, objGet_of_own m "phase_5_enabled" _ hf, jsOr_falsy _ _ hv]
      · intro v hf hv
        rw [hr, objGet_of_own m "phase_5_enabled" _ hf, jsOr_truthy _ _ hv]
      · intro ht
        rw [hr] at ht
        cases hf : ownProp m "phase_5_enabled" with
        | none =>
          rw [objGet_of_absent m "phase_5_enabled" (by decide) hf] at ht
          cases ht
        | some v =>
          rw [objGet_of_own m "phase_5_enabled" v hf] at ht
          unfold jsOr at ht
          split_ifs at ht with hv
          · rw [ht]
          · cases ht

/-- C8, amended, on `{metadata: {phase_5_enabled: true}}`, on `{metadata: {}}`
and on the flag `"yes"`, which comes back unchanged. -/
theorem isPhase5Enabled_flag_witness :
    isPhase5Enabled bareHost
      (worldOf (.obj [("metadata", .obj [("phase_5_enabled", .bool true)])])) = .bool true ∧
    isPhase5Enabled bareHost (worldOf (.obj [("metadata", .obj [])])) = .bool false ∧
    isPhase5Enabled bareHost
      (worldOf (.obj [("metadata", .obj [("phase_5_enabled", .str "yes")])])) = .str "yes" :=
  ⟨(((isPhase5Enabled_flag bareHost
        (worldOf (.obj [("metadata", .obj [("phase_5_enabled", .bool true)])]))).2
        _ rfl).2.2 _ rfl).2.1 true rfl,
   (((isPhase5Enabled_flag bareHost (worldOf (.obj [("metadata", .obj [])]))).2
        _ rfl).2.2 _ rfl).1 rfl,
   (((isPhase5Enabled_flag bareHost
        (worldOf (.obj [("metadata", .obj [("phase_5_enabled", .str "yes")])]))).2
        _ rfl).2.2 _ rfl).2.2.2.1 (.str "yes") rfl (by decide)⟩

/-! ## Club projection -/

/-- C7: when `club_statistics` is a sequence `cs` of records,
`getFormattedClubData` returns a sequence of the same length whose `i`-th
element is the record with exactly the fields `name`, `distance`, `deviation`,
`speed`, `rating`, `category`, each holding what the same-named field of
`cs[i]` reads as; when the dataset is `null` or has no `club_statistics` it
returns the empty sequence. -/
theorem getFormattedClubData_projection (h : Host) (w : World) :
    (w.dashboardData = .null → getFormattedClubData h w = some (.arr [])) ∧
    (∀ kvs, w.dashboardData = .obj kvs →
      (ownProp kvs "club_statistics" = none → getFormattedClubData h w = some (.arr [])) ∧
      (∀ cs : List (List (String × JVal)),
        ownProp kvs "club_statistics" = some (.arr (cs.map .obj)) →
        ∃ out : List JVal, getFormattedClubData h w = some (.arr out) ∧
          out.length = cs.length ∧
          ∀ i c, cs.get? i = some c →
            out.get? i = some (.obj
              [("name", objGet c "name"), ("distance", objGet c "distance"),
               ("deviation", objGet c "deviation"), ("speed", objGet c "speed"),
               ("rating", objGet c "rating"), ("category", objGet c "category")]))) := by
  refine ⟨?_, ?_⟩
  · intro hd
    simp only [getFormattedClubData, getClubStatistics, hd, optGet_null, jsOr_undefined]
    rfl
  · intro kvs hd
    refine ⟨?_, ?_⟩
    · intro ha
      simp only [getFormattedClubData, getClubStatistics, hd, optGet_obj,
        objGet_of_absent kvs "club_statistics" (by decide) ha, jsOr_undefined]
      rfl
    · intro cs hc
      refine ⟨cs.map (fun c => JVal.obj
        [("name", objGet c "name"), ("distance", objGet c "distance"),
         ("deviation", objGet c "deviation"), ("speed", objGet c "speed"),
         ("rating", objGet c "rating"), ("category", objGet c "category")]), ?_, ?_, ?_⟩
      · have hj : jsOr (JVal.arr (cs.map JVal.obj)) (.arr []) = .arr (cs.map JVal.obj) :=
          jsOr_truthy _ _ rfl
        simp only [getFormattedClubData, getClubStatistics, hd, optGet_obj,
          objGet_of_own kvs "club_statistics" _ hc, hj, mapM_formatClub]
        rfl
      · simp
      · intro i c hi
        rw [List.get?_eq_getElem?] at hi ⊢
        rw [List.getElem?_map, hi]
        rfl

/-- C7 on a one-club dataset whose record also carries a field outside the
projection. -/
theorem getFormattedClubData_projection_witness :
    getFormattedClubData bareHost
      (worldOf (.obj [("club_statistics", .arr [.obj
        [("name", .str "Driver"), ("distance", .num (.fin 230)), ("deviation", .num (.fin 12)),
         ("speed", .num (.fin 95)), ("rating", .str "A"), ("category", .str "long"),
         ("extra", .bool true)]])])) =
      some (.arr [.obj
        [("name", .str "Driver"), ("distance", .num (.fin 230)), ("deviation", .num (.fin 12)),
         ("speed", .num (.fin 95)), ("rating", .str "A"), ("category", .str "long")]]) := by
  obtain ⟨out, ho, hl, hi⟩ :=
    ((getFormattedClubData_projection bareHost
      (worldOf (.obj [("club_statistics", .arr [.obj
        [("name", .str "Driver"), ("distance", .num (.fin 230)), ("deviation", .num (.fin 12)),
         ("speed", .num (.fin 95)), ("rating", .str "A"), ("category", .str "long"),
         ("extra", .bool true)]])]))).2 _ rfl).2
      [[("name", .str "Driver"), ("distance", .num (.fin 230)), ("deviation", .num (.fin 12)),
        ("speed", .num (.fin 95)), ("rating", .str "A"), ("category", .str "long"),
        ("extra", .bool true)]] rfl
  rw [ho]
  match out, hl, hi 0 _ rfl with
  | [o], _, h0 =>
    simp only [List.get?_cons_zero, Option.some.injEq] at h0
    rw [h0]
    rfl

/-! ## Per-club series -/

/-- C3, at the club code `toString` on a dataset whose `temporal_evolution`
mapping is empty (and on the `null` dataset): the key is absent from the
mapping, yet the read finds the member every object inherits, the guard
`!clubData` does not fire, and the result is `{labels: [], values: undefined}`
and not `{labels: [], values: []}`. -/
theorem getClubTemporalData_inherited_key (h : Host) :
    ownProp [] "toString" = none ∧
    getClubTemporalData h (worldOf (.obj [("temporal_evolution", .obj [])])) "toString" =
      some (.obj [("labels", .arr []), ("values", .undefined)]) ∧
    getClubTemporalData h (worldOf .null) "toString" =
      some (.obj [("labels", .arr []), ("values", .undefined)]) ∧
    getClubTemporalData h (worldOf (.obj [("temporal_evolution", .obj [])])) "toString" ≠
      some (.obj [("labels", .arr []), ("values", .arr [])]) ∧
    getClubTemporalData h (worldOf .null) "DRIVER" =
      some (.obj [("labels", .arr []), ("values", .arr [])]) := by
  refine ⟨rfl, rfl, rfl, ?_, rfl⟩
  intro hc
  have h1 : getClubTemporalData h (worldOf (.obj [("temporal_evolution", .obj [])]))
      "toString" = some (.obj [("labels", .arr []), ("values", .undefined)]) := rfl
  rw [h1] at hc
  injection hc with hc
  injection hc with hc
  injection hc with _ hc
  injection hc with hc _
  injection hc with _ hc
  cases hc

/-! ## Loading and initialisation -/

/-- C6: `loadDashboardData` never raises (it always completes with a value).
When the response is successful and its body parses to `d`, it returns `d` and
the dataset state becomes `d` whatever it was, the rest of the state unchanged;
on a transport error, a non-success status or a malformed body it returns
`null` and leaves the state exactly as it was. -/
theorem loadDashboardData_outcomes (w : World) :
    (∀ f, ∃ v, (loadDashboardData f w).2 = some v) ∧
    (∀ d, loadDashboardData (.response true (some d)) w =
      ({ w with dashboardData := d }, some d)) ∧
    loadDashboardData .rejected w = (w, some .null) ∧
    (∀ json, loadDashboardData (.response false json) w = (w, some .null)) ∧
    loadDashboardData (.response true none) w = (w, some .null) := by
  refine ⟨?_, fun _ => rfl, rfl, fun _ => rfl, rfl⟩
  intro f
  cases f with
  | rejected => exact ⟨_, rfl⟩
  | response ok json =>
    cases ok with
    | false => exact ⟨_, rfl⟩
    | true =>
      cases json with
      | none => exact ⟨_, rfl⟩
      | some d => exact ⟨_, rfl⟩

/-- C5: on a failed fetch (transport error, non-success status, malformed
body), from a state whose dataset is `null`, `initDashboardData` returns
`null`; afterwards the dataset is still `null`, the three aliases, the
elements and the registered listeners are as before, and no event has been
dispatched. -/
theorem initDashboardData_failure (h : Host) (f : FetchResult) (w : World)
    (hf : f.failed = true) (hnull : w.dashboardData = .null) :
    ∃ w', initDashboardData h f w = some (w', .null) ∧
      w'.dashboardData = .null ∧ w'.clubData = w.clubData ∧
      w'.playerStats = w.playerStats ∧ w'.courseStats = w.courseStats ∧
      w'.readyState = w.readyState ∧ w'.elements = w.elements ∧
      w'.listeners = w.listeners ∧ w'.dispatched = w.dispatched := by
  refine ⟨w, ?_, hnull, rfl, rfl, rfl, rfl, rfl, rfl, rfl⟩
  simp [initDashboardData, loadDashboardData_failed f w hf, truthy]

/-- C5 on a response with a non-success status, from the initial state. -/
theorem initDashboardData_failure_witness :
    FetchResult.failed (.response false none) = true ∧
    (worldOf .null).dashboardData = .null ∧
    ∃ w', initDashboardData bareHost (.response false none) (worldOf .null) =
        some (w', .null) ∧
      w'.dashboardData = .null ∧ w'.clubData = (worldOf .null).clubData ∧
      w'.playerStats = (worldOf .null).playerStats ∧
      w'.courseStats = (worldOf .null).courseStats ∧
      w'.readyState = (worldOf .null).readyState ∧
      w'.elements = (worldOf .null).elements ∧
      w'.listeners = (worldOf .null).listeners ∧
      w'.dispatched = (worldOf .null).dispatched :=
  ⟨rfl, rfl, initDashboardData_failure bareHost (.response false none) (worldOf .null) rfl rfl⟩

/-! ## Document synchronisation -/

/-- C9: whenever `updateDashboardElements` completes it has touched nothing
but element texts. Every position keeps its `data-stat`; the first element
matching `handicap`, `total-rondas`, `mejor-score`, `promedio-score`,
`mejora-handicap` shows `handicap_actual`, `total_rondas`, `mejor_score`, the
rounded `promedio_score`, `mejora_handicap` of `getPlayerStats()`; an element
that is the first match of none of the five is unchanged. With scalar player
metrics the call does complete; and an update whose selector matches no element
is skipped without error and without change, whatever its value. -/
theorem updateDashboardElements_frame (h : Host) (w : World) :
    (∀ w', updateDashboardElements h w = some w' →
      ∃ n, toNumber h (optGet h (getPlayerStats h w) "promedio_score") = some n ∧
      w' = { w with elements := w'.elements } ∧
      w'.elements.length = w.elements.length ∧
      ∀ i e, w.elements.get? i = some e →
        ∃ e', w'.elements.get? i = some e' ∧ e'.dataStat = e.dataStat ∧
          (FirstMatch w.elements i "handicap" →
            some e'.text = domText h (optGet h (getPlayerStats h w) "handicap_actual")) ∧
          (FirstMatch w.elements i "total-rondas" →
            some e'.text = domText h (optGet h (getPlayerStats h w) "total_rondas")) ∧
          (FirstMatch w.elements i "mejor-score" →
            some e'.text = domText h (optGet h (getPlayerStats h w) "mejor_score")) ∧
          (FirstMatch w.elements i "promedio-score" →
            e'.text = numText h (roundNum n)) ∧
          (FirstMatch w.elements i "mejora-handicap" →
            some e'.text = domText h (optGet h (getPlayerStats h w) "mejora_handicap")) ∧
          ((∀ k ∈ ["handicap", "total-rondas", "mejor-score", "promedio-score",
              "mejora-handicap"], ¬ FirstMatch w.elements i k) → e' = e)) ∧
    ((∀ key ∈ ["handicap_actual", "total_rondas", "mejor_score", "promedio_score",
        "mejora_handicap"], isScalar (optGet h (getPlayerStats h w) key) = true) →
      ∃ w', updateDashboardElements h w = some w') ∧
    (∀ stat v els, (∀ e ∈ els, e.dataStat ≠ some stat) →
      updateElement h stat v els = some els) := by
  refine ⟨?_, ?_, fun stat v els hn => updateElement_noMatch h stat v els hn⟩
  · intro w' hu
    obtain ⟨t1, t2, t3, t5, n, rfl, hn, c1, c2, c3, c5⟩ := updateDashboardElements_some h w w' hu
    refine ⟨n, hn, rfl, setFirstAll_length _ _, ?_⟩
    intro i e he
    obtain ⟨e', g1, g2, g3, g4⟩ := setFirstAll_get
      [("handicap", t1), ("total-rondas", t2), ("mejor-score", t3),
        ("promedio-score", numText h (roundNum n)), ("mejora-handicap", t5)]
      (by simp only [List.map_cons, List.map_nil]; decide) w.elements i e he
    refine ⟨e', g1, g2, ?_, ?_, ?_, ?_, ?_, ?_⟩
    · intro hf; rw [c1 i hf, g3 ("handicap", t1) (by simp) hf]
    · intro hf; rw [c2 i hf, g3 ("total-rondas", t2) (by simp) hf]
    · intro hf; rw [c3 i hf, g3 ("mejor-score", t3) (by simp) hf]
    · intro hf; exact g3 ("promedio-score", numText h (roundNum n)) (by simp) hf
    · intro hf; rw [c5 i hf, g3 ("mejora-handicap", t5) (by simp) hf]
    · intro hall
      apply g4
      intro kt hkt
      apply hall kt.1
      simp only [List.mem_cons, List.mem_nil_iff, or_false] at hkt ⊢
      rcases hkt with rfl | rfl | rfl | rfl | rfl <;> simp
  · intro hs
    obtain ⟨t1, h1⟩ := domText_scalar h _ (hs "handicap_actual" (by simp))
    obtain ⟨t2, h2⟩ := domText_scalar h _ (hs "total_rondas" (by simp))
    obtain ⟨t3, h3⟩ := domText_scalar h _ (hs "mejor_score" (by simp))
    obtain ⟨n, h4⟩ := toNumber_scalar h _ (hs "promedio_score" (by simp))
    obtain ⟨t5, h5⟩ := domText_scalar h _ (hs "mejora_handicap" (by simp))
    exact ⟨_, updateDashboardElements_scalar h w t1 t2 t3 t5 n h1 h2 h3 h4 h5⟩

/-- C9 on the sample page: the first `handicap` element and the
`promedio-score` element receive `23` and `82`, the second `handicap` element
and the unmarked one keep their text, and the three selectors without an
element are skipped. -/
theorem updateDashboardElements_frame_witness :
    (∀ key ∈ ["handicap_actual", "total_rondas", "mejor_score", "promedio_score",
      "mejora_handicap"],
      isScalar (optGet bareHost (getPlayerStats bareHost sampleWorld) key) = true) ∧
    (∃ w', updateDashboardElements bareHost sampleWorld = some w' ∧
      w'.elements.length = sampleWorld.elements.length) ∧
    updateDashboardElements bareHost sampleWorld =
      some { sampleWorld with elements :=
        [⟨some "handicap", "23"⟩, ⟨none, "Resumen"⟩, ⟨some "handicap", "--"⟩,
         ⟨some "promedio-score", "82"⟩] } := by
  have hs : ∀ key ∈ ["handicap_actual", "total_rondas", "mejor_score", "promedio_score",
      "mejora_handicap"],
      isScalar (optGet bareHost (getPlayerStats bareHost sampleWorld) key) = true := by
    intro key hk
    simp only [List.mem_cons, List.mem_nil_iff, or_false] at hk
    rcases hk with rfl | rfl | rfl | rfl | rfl <;> rfl
  obtain ⟨w', hu⟩ := (updateDashboardElements_frame bareHost sampleWorld).2.1 hs
  obtain ⟨_, _, _, hl, _⟩ := (updateDashboardElements_frame bareHost sampleWorld).1 w' hu
  exact ⟨hs, ⟨w', hu, hl⟩, updateDashboardElements_sampleWorld⟩

/-- C4, the claim as stated fails: a successful fetch whose body parses to
`0` makes `initDashboardData` return `null` and not the parsed value, the
dataset state holds `0`, no alias is written and no event is dispatched. -/
theorem initDashboardData_falsy_body :
    initDashboardData bareHost (.response true (some (.num (.fin 0)))) (worldOf .null) =
      some ({ worldOf .null with dashboardData := .num (.fin 0) }, .null) ∧
    JVal.null ≠ .num (.fin 0) ∧
    ({ worldOf .null with dashboardData := .num (.fin 0) } : World).dispatched = [] := by
  refine ⟨?_, ?_, rfl⟩
  · exact initDashboardData_falsy bareHost _ _ (by simp [truthy])
  · intro hc; cases hc

/-- C4, amended: when the fetch succeeds with a document `d` of the data model
(a record whose `club_statistics` is absent or a sequence of records and whose
player metrics are scalars), `initDashboardData` returns `d`; afterwards the
dataset state is `d`, `clubData` is `getFormattedClubData()`, `playerStats` is
`getPlayerStats()`, `courseStats` is `getCourseStatistics()`, and exactly one
event, `dashboardDataReady` with `detail` `d`, has been dispatched. The document
receives the elements `updateDashboardElements` computes for `d`, in which the
first `promedio-score` element shows the average `q` of `d` rounded to the
nearest integer, the text of `floor (q + 1/2)` (82.4 gives `82`): at once when
the document is past `loading`, otherwise through the `DOMContentLoaded`
listener that the call registers. A body that parses to a falsy value is
stored, and the call then returns `null` without touching anything else. -/
theorem initDashboardData_success (h : Host) (w : World) (kvs : List (String × JVal))
    (hclubs : ownProp kvs "club_statistics" = none ∨
      ∃ cs : List (List (String × JVal)),
        ownProp kvs "club_statistics" = some (.arr (cs.map .obj)))
    (hs : ∀ key ∈ ["handicap_actual", "total_rondas", "mejor_score", "promedio_score",
      "mejora_handicap"],
      isScalar (optGet h (getPlayerStats h { w with dashboardData := .obj kvs }) key) = true) :
    ∃ w' clubs wu n,
      initDashboardData h (.response true (some (.obj kvs))) w = some (w', .obj kvs) ∧
      w'.dashboardData = .obj kvs ∧
      getFormattedClubData h w' = some clubs ∧ w'.clubData = clubs ∧
      w'.playerStats = getPlayerStats h w' ∧
      w'.courseStats = getCourseStatistics h w' ∧
      w'.dispatched = w.dispatched ++ [("dashboardDataReady", .obj kvs)] ∧
      w'.readyState = w.readyState ∧
      updateDashboardElements h { w with dashboardData := .obj kvs } = some wu ∧
      toNumber h (optGet h (getPlayerStats h w') "promedio_score") = some n ∧
      (∀ i, FirstMatch w.elements i "promedio-score" →
        ∃ e', wu.elements.get? i = some e' ∧ e'.text = numText h (roundNum n)) ∧
      (∀ q i, optGet h (getPlayerStats h w') "promedio_score" = .num (.fin q) →
        FirstMatch w.elements i "promedio-score" →
        ∃ e', wu.elements.get? i = some e' ∧
          e'.text = numText h (.fin ((Rat.floor (q + 1 / 2) : ℤ) : ℚ))) ∧
      (w.readyState ≠ .loading → w'.elements = wu.elements ∧ w'.listeners = w.listeners) ∧
      (w.readyState = .loading →
        w'.elements = w.elements ∧ Listener.updateDashboardElements ∈ w'.listeners ∧
        ∃ wd, updateDashboardElements h w' = some wd ∧ wd.elements = wu.elements) ∧
      (∀ q : ℚ, roundNum (.fin q) = .fin ((Rat.floor (q + 1 / 2) : ℤ) : ℚ) ∧
        ((Rat.floor (q + 1 / 2) : ℤ) : ℚ) - 1 / 2 ≤ q ∧
        q < ((Rat.floor (q + 1 / 2) : ℤ) : ℚ) + 1 / 2) ∧
      numText h (roundNum (.fin (412 / 5))) = "82" ∧
      (∀ d, truthy d = false →
        initDashboardData h (.response true (some d)) w =
          some ({ w with dashboardData := d }, .null)) := by
  obtain ⟨dd, cd, ps0, cs0, rs, els, ls, disp⟩ := w
  dsimp only at hs ⊢
  obtain ⟨t1, h1⟩ := domText_scalar h _ (hs "handicap_actual" (by simp))
  obtain ⟨t2, h2⟩ := domText_scalar h _ (hs "total_rondas" (by simp))
  obtain ⟨t3, h3⟩ := domText_scalar h _ (hs "mejor_score" (by simp))
  obtain ⟨n, h4⟩ := toNumber_scalar h _ (hs "promedio_score" (by simp))
  obtain ⟨t5, h5⟩ := domText_scalar h _ (hs "mejora_handicap" (by simp))
  obtain ⟨clubs, hg⟩ := getFormattedClubData_total h
    { dashboardData := .obj kvs, clubData := cd, playerStats := ps0, courseStats := cs0,
      readyState := rs, elements := els, listeners := ls, dispatched := disp } kvs rfl hclubs
  have hu := updateDashboardElements_scalar h _ t1 t2 t3 t5 n h1 h2 h3 h4 h5
  dsimp only at hu
  have hpm : ∀ i, FirstMatch els i "promedio-score" →
      ∃ e', (setFirstAll [("handicap", t1), ("total-rondas", t2), ("mejor-score", t3),
          ("promedio-score", numText h (roundNum n)), ("mejora-handicap", t5)]
          els).get? i = some e' ∧ e'.text = numText h (roundNum n) := by
    intro i hf
    obtain ⟨⟨e, he, -⟩, -⟩ := id hf
    obtain ⟨e', g1, -, g3, -⟩ := setFirstAll_get
      [("handicap", t1), ("total-rondas", t2), ("mejor-score", t3),
        ("promedio-score", numText h (roundNum n)), ("mejora-handicap", t5)]
      (by simp only [List.map_cons, List.map_nil]; decide) els i e he
    exact ⟨e', g1, g3 ("promedio-score", numText h (roundNum n)) (by simp) hf⟩
  have htie : ∀ q i,
      optGet h (getPlayerStats h
        { dashboardData := .obj kvs, clubData := cd, playerStats := ps0, courseStats := cs0,
          readyState := rs, elements := els, listeners := ls, dispatched := disp })
        "promedio_score" = .num (.fin q) →
      FirstMatch els i "promedio-score" →
      ∃ e', (setFirstAll [("handicap", t1), ("total-rondas", t2), ("mejor-score", t3),
          ("promedio-score", numText h (roundNum n)), ("mejora-handicap", t5)]
          els).get? i = some e' ∧
        e'.text = numText h (.fin ((Rat.floor (q + 1 / 2) : ℤ) : ℚ)) := by
    intro q i hq hf
    rw [hq] at h4
    have hn : n = .fin q := by
      simp only [toNumber, Option.some.injEq] at h4
      exact h4.symm
    obtain ⟨e', g1, g2⟩ := hpm i hf
    refine ⟨e', g1, ?_⟩
    rw [g2, hn]
    rfl
  have hround : ∀ q : ℚ, roundNum (.fin q) = .fin ((Rat.floor (q + 1 / 2) : ℤ) : ℚ) ∧
      ((Rat.floor (q + 1 / 2) : ℤ) : ℚ) - 1 / 2 ≤ q ∧
      q < ((Rat.floor (q + 1 / 2) : ℤ) : ℚ) + 1 / 2 :=
    fun q => ⟨rfl, round_nearest q⟩
  by_cases hr : rs = .loading
  · subst hr
    have hinit : initDashboardData h (.response true (some (.obj kvs)))
        { dashboardData := dd, clubData := cd, playerStats := ps0, courseStats := cs0,
          readyState := .loading, elements := els, listeners := ls, dispatched := disp } =
        some (dispatchCustom "dashboardDataReady" (.obj kvs)
          (addListener .updateDashboardElements
            { dashboardData := .obj kvs, clubData := clubs,
              playerStats := jsOr (optGet h (.obj kvs) "player_stats") (.obj []),
              courseStats := jsOr (optGet h (.obj kvs) "course_statistics") (.arr []),
              readyState := .loading, elements := els, listeners := ls,
              dispatched := disp }), .obj kvs) := by
      simp only [initDashboardData, loadDashboardData_parsed, truthy, if_true, hg,
        Option.bind_eq_bind, Option.some_bind]
      rfl
    by_cases hm : Listener.updateDashboardElements ∈ ls
    · rw [addListener, if_pos hm] at hinit
      refine ⟨_, clubs, _, n, hinit, rfl, hg, rfl, rfl, rfl, rfl, rfl, hu, h4, hpm, htie, ?_, ?_,
        hround, round_sample h,
        fun d hd => initDashboardData_falsy h d _ hd⟩
      · intro hne; exact absurd rfl hne
      · intro _
        exact ⟨rfl, hm, _, updateDashboardElements_scalar h _ t1 t2 t3 t5 n h1 h2 h3 h4 h5, rfl⟩
    · rw [addListener, if_neg hm] at hinit
      refine ⟨_, clubs, _, n, hinit, rfl, hg, rfl, rfl, rfl, rfl, rfl, hu, h4, hpm, htie, ?_, ?_,
        hround, round_sample h,
        fun d hd => initDashboardData_falsy h d _ hd⟩
      · intro hne; exact absurd rfl hne
      · intro _
        refine ⟨rfl, ?_, _,
          updateDashboardElements_scalar h _ t1 t2 t3 t5 n h1 h2 h3 h4 h5, rfl⟩
        simp [dispatchCustom]
  · have hu2 := updateDashboardElements_scalar h
      { dashboardData := .obj kvs, clubData := clubs,
        playerStats := jsOr (optGet h (.obj kvs) "player_stats") (.obj []),
        courseStats := jsOr (optGet h (.obj kvs) "course_statistics") (.arr []),
        readyState := rs, elements := els, listeners := ls, dispatched := disp }
      t1 t2 t3 t5 n h1 h2 h3 h4 h5
    dsimp only at hu2
    have hinit : initDashboardData h (.response true (some (.obj kvs)))
        { dashboardData := dd, clubData := cd, playerStats := ps0, courseStats := cs0,
          readyState := rs, elements := els, listeners := ls, dispatched := disp } =
        some (dispatchCustom "dashboardDataReady" (.obj kvs)
          { dashboardData := .obj kvs, clubData := clubs,
            playerStats := jsOr (optGet h (.obj kvs) "player_stats") (.obj []),
            courseStats := jsOr (optGet h (.obj kvs) "course_statistics") (.arr []),
            readyState := rs,
            elements := setFirstAll [("handicap", t1), ("total-rondas", t2),
              ("mejor-score", t3), ("promedio-score", numText h (roundNum n)),
              ("mejora-handicap", t5)] els,
            listeners := ls, dispatched := disp }, .obj kvs) := by
      simp only [initDashboardData, loadDashboardData_parsed, truthy, if_true, hg,
        Option.bind_eq_bind, Option.some_bind, hr, if_false, getPlayerStats,
        getCourseStatistics]
      rw [hu2]
      rfl
    refine ⟨_, clubs, _, n, hinit, rfl, hg, rfl, rfl, rfl, rfl, rfl, hu, h4, hpm, htie, ?_, ?_,
      hround, round_sample h,
        fun d hd => initDashboardData_falsy h d _ hd⟩
    · intro _
      exact ⟨rfl, rfl⟩
    · intro hl
      exact absurd hl hr

/-- C4, amended, on the sample dataset loaded into the sample page: the call
returns the dataset, one event is dispatched, and the page shows `23` in the
first `handicap` element and `82`, the rounded 82.4, in the `promedio-score`
element. -/
theorem initDashboardData_success_witness :
    (ownProp sampleRecord "club_statistics" = none ∨
      ∃ cs : List (List (String × JVal)),
        ownProp sampleRecord "club_statistics" = some (.arr (cs.map .obj))) ∧
    (∀ key ∈ ["handicap_actual", "total_rondas", "mejor_score", "promedio_score",
      "mejora_handicap"],
      isScalar (optGet bareHost (getPlayerStats bareHost
        { samplePage with dashboardData := .obj sampleRecord }) key) = true) ∧
    ∃ w', initDashboardData bareHost (.response true (some (.obj sampleRecord)))
        samplePage = some (w', .obj sampleRecord) ∧
      w'.dashboardData = .obj sampleRecord ∧
      w'.dispatched = [("dashboardDataReady", .obj sampleRecord)] ∧
      w'.elements =
        [⟨some "handicap", "23"⟩, ⟨none, "Resumen"⟩, ⟨some "handicap", "--"⟩,
         ⟨some "promedio-score", "82"⟩] := by
  have hc : ownProp sampleRecord "club_statistics" = none ∨
      ∃ cs : List (List (String × JVal)),
        ownProp sampleRecord "club_statistics" = some (.arr (cs.map .obj)) :=
    Or.inr ⟨[[("name", .str "Driver")]], rfl⟩
  have hs : ∀ key ∈ ["handicap_actual", "total_rondas", "mejor_score", "promedio_score",
      "mejora_handicap"],
      isScalar (optGet bareHost (getPlayerStats bareHost
        { samplePage with dashboardData := .obj sampleRecord }) key) = true := by
    intro key hk
    simp only [List.mem_cons, List.mem_nil_iff, or_false] at hk
    rcases hk with rfl | rfl | rfl | rfl | rfl <;> rfl
  obtain ⟨w', _, wu, _, hi, hd, _, _, _, _, hdis, _, hu, _, _, _, hready, _⟩ :=
    initDashboardData_success bareHost samplePage sampleRecord hc hs
  have hsw : updateDashboardElements bareHost
      { samplePage with dashboardData := .obj sampleRecord } =
      some { sampleWorld with elements :=
        [⟨some "handicap", "23"⟩, ⟨none, "Resumen"⟩, ⟨some "handicap", "--"⟩,
         ⟨some "promedio-score", "82"⟩] } := updateDashboardElements_sampleWorld
  rw [hsw] at hu
  simp only [Option.some.injEq] at hu
  have hel := (hready (by decide)).1
  rw [← hu] at hel
  exact ⟨hc, hs, w', hi, hd, hdis, hel⟩

end DashboardLoader
